import Mathlib

/-!
# Mittimantra frontend: session and request-gateway layer

A shallow embedding of `src/services/api.js` (the axios instance with its
request and response interceptors and the `apiService` calls), of
`src/context/AuthContext.jsx` (`AuthProvider`: `checkAuth`, `login`,
`register`, `logout`, the exposed context value and `useAuth`), of the route
table of `src/App.jsx`, and of the handlers of the pages `Register`,
`Dashboard`, `DiseaseDetection`, `PestControl`, `CropRecommendation` and
`IrrigationScheduler`.

Stateful JavaScript becomes explicit state passing over `App`.  A backend
answer is an argument of the call that awaits it.  A function that may throw
(or an `async` function whose promise may reject) returns an `Except`.
-/

namespace Mittimantra

/-! ## Values -/

/-- String-keyed dictionary of strings: the shape of `localStorage` and of a
header bag. -/
structure Dict where
  entries : List (String × String)
deriving DecidableEq, Repr

/-- Lookup, `localStorage.getItem(k)`: the stored string, or `none` for `null`. -/
def Dict.getItem (d : Dict) (k : String) : Option String :=
  d.entries.lookup k

/-- Write, `localStorage.setItem(k, v)`: overwrites an earlier entry for `k`. -/
def Dict.setItem (d : Dict) (k v : String) : Dict :=
  ⟨(k, v) :: d.entries.filter (fun e => e.1 != k)⟩

/-- Delete, `localStorage.removeItem(k)`. -/
def Dict.removeItem (d : Dict) (k : String) : Dict :=
  ⟨d.entries.filter (fun e => e.1 != k)⟩

/-- JavaScript truthiness of a value that is `null` or a string: `null` and
the empty string are falsy. -/
def truthy : Option String → Bool
  | none => false
  | some s => s != ""

/-- The user profile record the backend returns (`id`, `username`, and the
remaining display fields kept as they came). -/
structure User where
  id : Nat
  username : String
  fields : List (String × String)
deriving DecidableEq, Repr

/-- Double negation `!!user` of a value that is `null` or a profile record: a
record is always truthy. -/
def truthyUser : Option User → Bool
  | none => false
  | some _ => true

/-- An axios request config: method, url, headers, and the JSON body as a
field list (`none` is JSON `null`). -/
structure RequestConfig where
  method : String
  url : String
  headers : Dict
  data : List (String × Option String)
deriving DecidableEq, Repr

/-- Payload of an error response; `detail` is `error.response.data.detail`. -/
structure ErrorData where
  detail : Option String
deriving DecidableEq, Repr

/-- The `response` of an axios error. -/
structure ErrorResponse where
  status : Nat
  data : Option ErrorData
deriving DecidableEq, Repr

/-- An axios error; `response` is absent for a transport failure. -/
structure ApiError where
  message : String
  response : Option ErrorResponse
deriving DecidableEq, Repr

/-- A fulfilled axios response. -/
structure AxiosResponse (α : Type) where
  status : Nat
  data : α
deriving DecidableEq, Repr

/-- Body of a successful login or register response. -/
structure AuthData where
  access_token : String
  user : User
deriving DecidableEq, Repr

/-- Kinds of `react-toastify` notifications used by the provider. -/
inductive ToastKind where
  | success
  | error
  | info
deriving DecidableEq, Repr

/-- What `login` and `register` return: `{ success, error }`. -/
structure AuthResult where
  success : Bool
  error : Option String
deriving DecidableEq, Repr

/-! ## Application state -/

/-- Everything the session layer reads or writes.

* `localStorage`, `location`: browser state that survives the React tree;
  `documentLoads` logs the assignments to `window.location.href`.
* `user`, `loading`: the two `useState` cells of `AuthProvider`.
* `navigations`: the `navigate(path)` calls made through the router.
* `toasts`, `console`: notifications and `console.error` lines.
* `requests`: the configs handed to the backend, after the request stage.
* `checkAuthPending`: the startup check is suspended at its `await`. -/
structure App where
  localStorage : Dict
  location : String
  documentLoads : List String
  user : Option User
  loading : Bool
  navigations : List String
  toasts : List (ToastKind × String)
  console : List String
  requests : List RequestConfig
  checkAuthPending : Bool
deriving DecidableEq, Repr

/-- State setter `setUser(v)`. -/
def App.setUser (s : App) (v : Option User) : App := { s with user := v }

/-- State setter `setLoading(b)`. -/
def App.setLoading (s : App) (b : Bool) : App := { s with loading := b }

/-- Router call `navigate(path)`: a client-side navigation. -/
def App.navigate (s : App) (path : String) : App :=
  { s with location := path, navigations := s.navigations ++ [path] }

/-- Assignment `window.location.href = path`: the browser is sent to `path`
by loading the document anew. -/
def App.setHref (s : App) (path : String) : App :=
  { s with location := path, documentLoads := s.documentLoads ++ [path] }

/-- Notification `toast.success / toast.error / toast.info`. -/
def App.toast (s : App) (k : ToastKind) (msg : String) : App :=
  { s with toasts := s.toasts ++ [(k, msg)] }

/-- Logging call `console.error(label, error)`. -/
def App.consoleError (s : App) (label : String) : App :=
  { s with console := s.console ++ [label] }

/-- Storage write `localStorage.setItem(k, v)`. -/
def App.storageSet (s : App) (k v : String) : App :=
  { s with localStorage := s.localStorage.setItem k v }

/-- Storage delete `localStorage.removeItem(k)`. -/
def App.storageRemove (s : App) (k : String) : App :=
  { s with localStorage := s.localStorage.removeItem k }

/-! ## `services/api.js` -/

/-- Default headers of `axios.create`. -/
def defaultHeaders : Dict := ⟨[("Content-Type", "application/json")]⟩

/-- Request interceptor, fulfilled handler (api.js 14-21): attach
`Authorization: Bearer <token>` when `localStorage.getItem('token')` is
truthy, and return the config. -/
def requestFulfilled (s : App) (config : RequestConfig) : RequestConfig :=
  match s.localStorage.getItem "token" with
  | some token =>
    if truthy (some token) then
      { config with headers := config.headers.setItem "Authorization" ("Bearer " ++ token) }
    else config
  | none => config

/-- Request interceptor, rejected handler (api.js 22-24). -/
def requestRejected {α : Type} (error : ApiError) : Except ApiError α :=
  .error error

/-- Response interceptor, fulfilled handler (api.js 29): `(response) => response`. -/
def responseFulfilled {α : Type} (response : AxiosResponse α) : AxiosResponse α :=
  response

/-- Response interceptor, rejected handler (api.js 30-37): on
`error.response?.status === 401` remove the token and assign
`window.location.href = '/'`; always reject with the same error. -/
def responseRejected {α : Type} (s : App) (error : ApiError) :
    App × Except ApiError (AxiosResponse α) :=
  let s1 :=
    if error.response.map (fun r => r.status) = some 401 then
      (s.storageRemove "token").setHref "/"
    else s
  (s1, .error error)

/-- Sending half of a call through the axios instance: the request stage
runs and the resulting config goes to the backend. -/
def api.send (s : App) (config : RequestConfig) : App :=
  { s with requests := s.requests ++ [requestFulfilled s config] }

/-- Receiving half of a call: the backend outcome runs through the response
stage. -/
def api.receive {α : Type} (s : App) (backend : Except ApiError (AxiosResponse α)) :
    App × Except ApiError (AxiosResponse α) :=
  match backend with
  | .ok response => (s, .ok (responseFulfilled response))
  | .error error => responseRejected s error

/-- A whole call through the axios instance with backend outcome `backend`. -/
def api.request {α : Type} (s : App) (config : RequestConfig)
    (backend : Except ApiError (AxiosResponse α)) : App × Except ApiError (AxiosResponse α) :=
  api.receive (api.send s config) backend

/-- Config of `api.get(url)`. -/
def api.getConfig (url : String) : RequestConfig :=
  { method := "get", url := url, headers := defaultHeaders, data := [] }

/-- Config of `api.post(url, data)`. -/
def api.postConfig (url : String) (data : List (String × Option String)) : RequestConfig :=
  { method := "post", url := url, headers := defaultHeaders, data := data }

/-- Unwrapping `return response.data` after an awaited call. -/
def responseData {α : Type} (r : App × Except ApiError (AxiosResponse α)) :
    App × Except ApiError α :=
  match r with
  | (s, .ok response) => (s, .ok response.data)
  | (s, .error e) => (s, .error e)

/-- The call `apiService.login(username, password)` (api.js 87-90). -/
def apiService.login (s : App) (username password : String)
    (backend : Except ApiError (AxiosResponse AuthData)) : App × Except ApiError AuthData :=
  responseData (api.request s
    (api.postConfig "/api/auth/login" [("username", some username), ("password", some password)])
    backend)

/-- The call `apiService.register(email, username, password, full_name = null)`
(api.js 92-100). -/
def apiService.register (s : App) (email username password : String)
    (full_name : Option String)
    (backend : Except ApiError (AxiosResponse AuthData)) : App × Except ApiError AuthData :=
  responseData (api.request s
    (api.postConfig "/api/auth/register"
      [("email", some email), ("username", some username), ("password", some password),
       ("full_name", full_name)])
    backend)

/-- Config of `apiService.getProfile` (api.js 107-110). -/
def apiService.getProfileConfig : RequestConfig := api.getConfig "/api/auth/me"

/-- The call `apiService.getProfile()`, sending half. -/
def apiService.getProfileSend (s : App) : App :=
  api.send s apiService.getProfileConfig

/-- The call `apiService.getProfile()`, receiving half. -/
def apiService.getProfileReceive (s : App)
    (backend : Except ApiError (AxiosResponse User)) : App × Except ApiError User :=
  responseData (api.receive s backend)

/-- The call `apiService.getCropPatterns()` (api.js 113-116); the payload is
kept as text. -/
def apiService.getCropPatterns (s : App)
    (backend : Except ApiError (AxiosResponse String)) : App × Except ApiError String :=
  responseData (api.request s (api.getConfig "/crop-patterns") backend)

/-! ## `context/AuthContext.jsx` -/

/-- State of a freshly mounted `AuthProvider`: `useState(null)`,
`useState(true)`, with the storage and location the browser holds. -/
def initialApp (ls : Dict) (location : String) : App :=
  { localStorage := ls, location := location, documentLoads := [], user := none,
    loading := true, navigations := [], toasts := [], console := [], requests := [],
    checkAuthPending := false }

/-- Startup check `checkAuth`, up to its `await` (AuthContext.jsx 23-27): with a
truthy token the profile request is sent and the check suspends; otherwise
it runs to its end, `setLoading(false)`. -/
def checkAuthBegin (s : App) : App :=
  let token := s.localStorage.getItem "token"
  if truthy token then
    { apiService.getProfileSend s with checkAuthPending := true }
  else
    s.setLoading false

/-- Startup check `checkAuth`, from the `await` on (AuthContext.jsx 27-34): on
success `setUser(userData)`; on any rejection log and remove the token; then
`setLoading(false)`.  The promise of `checkAuth` resolves either way. -/
def checkAuthResume (s : App) (backend : Except ApiError (AxiosResponse User)) :
    App × Except ApiError Unit :=
  let s0 := { s with checkAuthPending := false }
  match apiService.getProfileReceive s0 backend with
  | (s1, .ok userData) => ((s1.setUser (some userData)).setLoading false, .ok ())
  | (s1, .error _) =>
    (((s1.consoleError "Auth check failed:").storageRemove "token").setLoading false, .ok ())

/-- Startup check `checkAuth` run without interruption; `backend` answers the
profile request if one is sent. -/
def checkAuth (s : App) (backend : Except ApiError (AxiosResponse User)) :
    App × Except ApiError Unit :=
  let s1 := checkAuthBegin s
  if s1.checkAuthPending then checkAuthResume s1 backend else (s1, .ok ())

/-- Or-fallback `error.response?.data?.detail || fallback`. -/
def errorMessage (error : ApiError) (fallback : String) : String :=
  let detail := (error.response.bind (fun r => r.data)).bind (fun d => d.detail)
  match detail with
  | some m => if truthy detail then m else fallback
  | none => fallback

/-- The operation `login(username, password)` (AuthContext.jsx 40-61). -/
def login (s : App) (username password : String)
    (backend : Except ApiError (AxiosResponse AuthData)) : App × Except ApiError AuthResult :=
  match apiService.login s username password backend with
  | (s1, .ok data) =>
    let s2 := s1.storageSet "token" data.access_token
    let s3 := s2.setUser (some data.user)
    let s4 := s3.navigate "/"
    let s5 := s4.toast .success "Logged in successfully!"
    (s5, .ok { success := true, error := none })
  | (s1, .error error) =>
    let message := errorMessage error "Login failed"
    let s2 := s1.toast .error message
    (s2, .ok { success := false, error := some message })

/-- The operation `register(email, username, password, full_name)`
(AuthContext.jsx 63-84). -/
def register (s : App) (email username password : String) (full_name : Option String)
    (backend : Except ApiError (AxiosResponse AuthData)) : App × Except ApiError AuthResult :=
  match apiService.register s email username password full_name backend with
  | (s1, .ok data) =>
    let s2 := s1.storageSet "token" data.access_token
    let s3 := s2.setUser (some data.user)
    let s4 := s3.navigate "/"
    let s5 := s4.toast .success "Account created successfully!"
    (s5, .ok { success := true, error := none })
  | (s1, .error error) =>
    let message := errorMessage error "Registration failed"
    let s2 := s1.toast .error message
    (s2, .ok { success := false, error := some message })

/-- The operation `logout()` (AuthContext.jsx 86-91). -/
def logout (s : App) : App × Except ApiError Unit :=
  let s1 := s.storageRemove "token"
  let s2 := s1.setUser none
  let s3 := s2.navigate "/login"
  let s4 := s3.toast .info "Logged out successfully"
  (s4, .ok ())

/-- The context value handed to consumers (AuthContext.jsx 93-100), without
the three callbacks. -/
structure AuthValue where
  user : Option User
  loading : Bool
  isAuthenticated : Bool
deriving DecidableEq, Repr

/-- The `value` object of `AuthProvider`: `isAuthenticated: !!user`. -/
def AuthProvider.value (s : App) : AuthValue :=
  { user := s.user, loading := s.loading, isAuthenticated := truthyUser s.user }

/-- Mounting `AuthProvider`: the effect starts `checkAuth()` (AuthContext.jsx 21-38). -/
def mount (s : App) : App := checkAuthBegin s

/-- Loading the document: a fresh provider over the persisted storage. -/
def pageLoad (ls : Dict) (location : String) : App := mount (initialApp ls location)

/-! ## `pages/Register.jsx` -/

/-- A string argument of a JavaScript call that may be left out (`undefined`)
or passed as `null`. -/
inductive OptArg where
  | undefined
  | null
  | value (s : String)
deriving DecidableEq, Repr

/-- Default parameter `full_name = null` of `apiService.register` (api.js 92):
`undefined` takes the default `null`, everything else is kept.  The result is
the JSON value of the field, `none` being `null`. -/
def OptArg.orNull : OptArg → Option String
  | .undefined => none
  | .null => none
  | .value s => some s

/-- The provider's `register` as calling code invokes it, the fourth argument
possibly missing; it reaches `apiService.register` positionally, where the
default parameter applies. -/
def registerCall (s : App) (email username password : String) (full_name : OptArg)
    (backend : Except ApiError (AxiosResponse AuthData)) : App × Except ApiError AuthResult :=
  register s email username password full_name.orNull backend

/-- The `formData` cell of the registration form (Register.jsx 8-13). -/
structure RegisterForm where
  email : String
  username : String
  password : String
  full_name : String
deriving DecidableEq, Repr

/-- Or-fallback `formData.full_name || null` (Register.jsx 36). -/
def RegisterForm.fullNameArg (formData : RegisterForm) : OptArg :=
  if truthy (some formData.full_name) then .value formData.full_name else .null

/-- Form handler `handleSubmit` of the registration page (Register.jsx 24-41);
the second component is `isLoading` once the `finally` block has run. -/
def Register.handleSubmit (s : App) (formData : RegisterForm)
    (backend : Except ApiError (AxiosResponse AuthData)) : App × Bool :=
  match registerCall s formData.email formData.username formData.password
      formData.fullNameArg backend with
  | (s1, .ok _) => (s1, false)
  | (s1, .error _) => (s1.consoleError "Registration error:", false)

/-! ## `App.jsx` and the consumers of the context -/

/-- A `Route` of App.jsx: its path and whether its element is wrapped in
`ProtectedRoute`. -/
structure Route where
  path : String
  guarded : Bool
deriving DecidableEq, Repr

/-- The route table of App.jsx (lines 38-54). -/
def routes : List Route :=
  [ { path := "/login", guarded := false },
    { path := "/register", guarded := false },
    { path := "/", guarded := false },
    { path := "/crop-recommendation", guarded := false },
    { path := "/disease-detection", guarded := false },
    { path := "/irrigation-scheduler", guarded := false },
    { path := "/pest-control", guarded := false },
    { path := "/dashboard", guarded := true },
    { path := "/about", guarded := false } ]

/-- Hook `useContext(AuthContext)`: the value of the enclosing `AuthProvider`
when there is one (its state being `provider`), and the default `null` of
`createContext(null)` otherwise. -/
def useContext (provider : Option App) : Option AuthValue :=
  provider.map AuthProvider.value

/-- Hook `useAuth` (AuthContext.jsx 8-14): throws when the context is falsy,
returns it otherwise.  The error is represented by its message. -/
def useAuth (context : Option AuthValue) : Except String AuthValue :=
  match context with
  | none => .error "useAuth must be used within AuthProvider"
  | some value => .ok value

/-- Modelled from the spec: the three session statuses of section 3, which the
route guard reads; the guard component itself is missing from the sources. -/
inductive Status where
  | unknown
  | authenticated
  | anonymous
deriving DecidableEq, Repr

/-- Modelled from the spec: the status carried by the context value, `unknown`
while the startup check has not completed (`loading`), then `authenticated`
exactly when the identity is present (sections 3 and 4.3). -/
def sessionStatus (v : AuthValue) : Status :=
  if v.loading then .unknown
  else if v.isAuthenticated then .authenticated
  else .anonymous

/-- Modelled from the spec: the three things the route guard of section 4.5 can
yield for a requested view. -/
inductive GuardOutcome (View : Type) where
  | loadingPlaceholder
  | redirect (target : String)
  | render (view : View)
deriving DecidableEq, Repr

/-- Modelled from the spec: the component `components/ProtectedRoute` that
App.jsx imports and wraps around the dashboard, missing from the sources;
section 4.5 gives its three cases.  The anonymous entry point it redirects
to is an argument. -/
def ProtectedRoute {View : Type} (anonymousEntry : String) (v : AuthValue) (children : View) :
    GuardOutcome View :=
  match sessionStatus v with
  | .unknown => .loadingPlaceholder
  | .anonymous => .redirect anonymousEntry
  | .authenticated => .render children

/-! ## `pages/Dashboard.jsx` -/

/-- The three `useState` cells of the dashboard (Dashboard.jsx 9-11); payloads
are kept as text. -/
structure DashboardState where
  loading : Bool
  insights : Option String
  cropPatterns : Option String
deriving DecidableEq, Repr

/-- Loader `fetchDashboardData` (Dashboard.jsx 17-32).  Both requests of the
`Promise.all` are sent before either answer is handled; each answer runs
through the response stage; only when both resolve are the two cells set. -/
def Dashboard.fetchDashboardData (s : App) (d : DashboardState)
    (insightsBackend patternsBackend : Except ApiError (AxiosResponse String)) :
    App × DashboardState :=
  let d1 := { d with loading := true }
  let s1 := api.send s (api.getConfig "/farmer-insights")
  let s2 := api.send s1 (api.getConfig "/crop-patterns")
  let r1 := responseData (api.receive s2 insightsBackend)
  let r2 := responseData (api.receive r1.1 patternsBackend)
  match r1.2, r2.2 with
  | .ok insightsData, .ok patternsData =>
    (r2.1, { d1 with insights := some insightsData, cropPatterns := some patternsData,
                     loading := false })
  | _, _ =>
    ((r2.1.consoleError "Error fetching dashboard data:").toast .error
        "Failed to load dashboard data",
     { d1 with loading := false })

/-! ## `pages/DiseaseDetection.jsx` and `pages/PestControl.jsx` -/

/-- A browser `File`: its name and MIME type. -/
structure File where
  name : String
  type : String
deriving DecidableEq, Repr

/-- The `useState` cells shared by the two image pages (lines 8-11 of each). -/
structure ImagePage where
  loading : Bool
  result : Option String
  selectedImage : Option File
  previewUrl : Option String
deriving DecidableEq, Repr

/-- String method `s.startsWith(pre)`. -/
def startsWith (s pre : String) : Bool := pre.data.isPrefixOf s.data

/-- String method `s.toLowerCase()`, on the basic Latin letters; no other
character is mapped to a letter of the five severity names. -/
def toLowerCase (s : String) : String := ⟨s.data.map Char.toLower⟩

/-- Config of the multipart upload `api.post(url, formData, { headers })`
(api.js 55-65 and 74-84). -/
def api.uploadConfig (url : String) (file : File) : RequestConfig :=
  { method := "post", url := url,
    headers := defaultHeaders.setItem "Content-Type" "multipart/form-data",
    data := [("file", some file.name)] }

/-- The call `apiService.predictDisease(file)` (api.js 55-65). -/
def apiService.predictDisease (s : App) (file : File)
    (backend : Except ApiError (AxiosResponse String)) : App × Except ApiError String :=
  responseData (api.request s (api.uploadConfig "/predict-disease" file) backend)

/-- The call `apiService.getPestControl(file)` (api.js 74-84). -/
def apiService.getPestControl (s : App) (file : File)
    (backend : Except ApiError (AxiosResponse String)) : App × Except ApiError String :=
  responseData (api.request s (api.uploadConfig "/pest-control" file) backend)

/-- Handler `handleImageSelect` of DiseaseDetection.jsx (14-26); `file` is
`e.target.files[0]` and `createObjectURL` is `URL.createObjectURL`. -/
def DiseaseDetection.handleImageSelect (createObjectURL : File → String) (s : App)
    (p : ImagePage) (file : Option File) : App × ImagePage :=
  match file with
  | some file =>
    if !(startsWith file.type "image/") then
      (s.toast .error "Please select a valid image file", p)
    else
      (s, { p with selectedImage := some file, previewUrl := some (createObjectURL file),
                   result := none })
  | none => (s, p)

/-- Handler `handleSubmit` of DiseaseDetection.jsx (28-48). -/
def DiseaseDetection.handleSubmit (s : App) (p : ImagePage)
    (backend : Except ApiError (AxiosResponse String)) : App × ImagePage :=
  match p.selectedImage with
  | none => (s.toast .error "Please select an image first", p)
  | some selectedImage =>
    let p1 := { p with loading := true }
    match apiService.predictDisease s selectedImage backend with
    | (s1, .ok response) =>
      (s1.toast .success "Disease detected successfully!",
       { p1 with result := some response, loading := false })
    | (s1, .error error) =>
      ((s1.consoleError "Error:").toast .error (errorMessage error "Failed to detect disease"),
       { p1 with loading := false })

/-- Helper `getSeverityColor` of DiseaseDetection.jsx (59-73):
`switch (severity?.toLowerCase())`. -/
def DiseaseDetection.getSeverityColor (severity : Option String) : String :=
  match severity.map toLowerCase with
  | some "high" => "text-red-600 bg-red-100"
  | some "very high" => "text-red-600 bg-red-100"
  | some "medium" => "text-orange-600 bg-orange-100"
  | some "low" => "text-yellow-600 bg-yellow-100"
  | some "none" => "text-green-600 bg-green-100"
  | _ => "text-gray-600 bg-gray-100"

/-- Handler `handleImageSelect` of PestControl.jsx (14-26). -/
def PestControl.handleImageSelect (createObjectURL : File → String) (s : App)
    (p : ImagePage) (file : Option File) : App × ImagePage :=
  match file with
  | some file =>
    if !(startsWith file.type "image/") then
      (s.toast .error "Please select a valid image file", p)
    else
      (s, { p with selectedImage := some file, previewUrl := some (createObjectURL file),
                   result := none })
  | none => (s, p)

/-- Handler `handleSubmit` of PestControl.jsx (28-48). -/
def PestControl.handleSubmit (s : App) (p : ImagePage)
    (backend : Except ApiError (AxiosResponse String)) : App × ImagePage :=
  match p.selectedImage with
  | none => (s.toast .error "Please select an image first", p)
  | some selectedImage =>
    let p1 := { p with loading := true }
    match apiService.getPestControl s selectedImage backend with
    | (s1, .ok response) =>
      (s1.toast .success "Pest control recommendations generated!",
       { p1 with result := some response, loading := false })
    | (s1, .error error) =>
      ((s1.consoleError "Error:").toast .error
          (errorMessage error "Failed to get pest control recommendations"),
       { p1 with loading := false })

/-- Helper `getSeverityColor` of PestControl.jsx (59-73). -/
def PestControl.getSeverityColor (severity : Option String) : String :=
  match severity.map toLowerCase with
  | some "very high" => "bg-red-100 text-red-700 border-red-300"
  | some "high" => "bg-red-100 text-red-700 border-red-300"
  | some "medium" => "bg-orange-100 text-orange-700 border-orange-300"
  | some "low" => "bg-yellow-100 text-yellow-700 border-yellow-300"
  | some "none" => "bg-green-100 text-green-700 border-green-300"
  | _ => "bg-gray-100 text-gray-700 border-gray-300"

/-! ## `pages/CropRecommendation.jsx` and `pages/IrrigationScheduler.jsx` -/

/-- The `loading` and `result` cells of the two form pages (lines 8-9 of
each); the backend answer is kept as text. -/
structure FormPage where
  loading : Bool
  result : Option String
deriving DecidableEq, Repr

/-- The `formData` cell of CropRecommendation.jsx (10-18). -/
structure CropForm where
  nitrogen : String
  phosphorus : String
  potassium : String
  temperature : String
  humidity : String
  ph : String
  rainfall : String
deriving DecidableEq, Repr

/-- The `formData` cell of IrrigationScheduler.jsx (10-17). -/
structure IrrigationForm where
  crop_type : String
  soil_moisture : String
  temperature : String
  humidity : String
  rainfall : String
  crop_stage : String
deriving DecidableEq, Repr

/-- The call `apiService.predictCrop(data)` (api.js 49-52). -/
def apiService.predictCrop (s : App) (data : List (String × Option String))
    (backend : Except ApiError (AxiosResponse String)) : App × Except ApiError String :=
  responseData (api.request s (api.postConfig "/predict-crop" data) backend)

/-- The call `apiService.getIrrigationSchedule(data)` (api.js 68-71). -/
def apiService.getIrrigationSchedule (s : App) (data : List (String × Option String))
    (backend : Except ApiError (AxiosResponse String)) : App × Except ApiError String :=
  responseData (api.request s (api.postConfig "/irrigation-schedule" data) backend)

/-- Handler `handleSubmit` of CropRecommendation.jsx (27-53).  The argument
`parseFloat` is the JavaScript builtin, giving the JSON text of the number
sent (`none` for the `null` that `NaN` is serialised to). -/
def CropRecommendation.handleSubmit (parseFloat : String → Option String) (s : App)
    (p : FormPage) (formData : CropForm)
    (backend : Except ApiError (AxiosResponse String)) : App × FormPage :=
  let p1 := { p with loading := true }
  let p2 := { p1 with result := none }
  let payload :=
    [("nitrogen", parseFloat formData.nitrogen),
     ("phosphorus", parseFloat formData.phosphorus),
     ("potassium", parseFloat formData.potassium),
     ("temperature", parseFloat formData.temperature),
     ("humidity", parseFloat formData.humidity),
     ("ph", parseFloat formData.ph),
     ("rainfall", parseFloat formData.rainfall)]
  match apiService.predictCrop s payload backend with
  | (s1, .ok response) =>
    (s1.toast .success "Crop recommendation generated successfully!",
     { p2 with result := some response, loading := false })
  | (s1, .error error) =>
    ((s1.consoleError "Error:").toast .error
        (errorMessage error "Failed to get crop recommendation"),
     { p2 with loading := false })

/-- Handler `handleSubmit` of IrrigationScheduler.jsx (39-63). -/
def IrrigationScheduler.handleSubmit (parseFloat : String → Option String) (s : App)
    (p : FormPage) (formData : IrrigationForm)
    (backend : Except ApiError (AxiosResponse String)) : App × FormPage :=
  let p1 := { p with loading := true }
  let p2 := { p1 with result := none }
  let payload :=
    [("crop_type", some formData.crop_type),
     ("soil_moisture", parseFloat formData.soil_moisture),
     ("temperature", parseFloat formData.temperature),
     ("humidity", parseFloat formData.humidity),
     ("rainfall", parseFloat formData.rainfall),
     ("crop_stage", some formData.crop_stage)]
  match apiService.getIrrigationSchedule s payload backend with
  | (s1, .ok response) =>
    (s1.toast .success "Irrigation schedule generated successfully!",
     { p2 with result := some response, loading := false })
  | (s1, .error error) =>
    ((s1.consoleError "Error:").toast .error
        (errorMessage error "Failed to get irrigation schedule"),
     { p2 with loading := false })

/-! ## Reachable states -/

/-- One event of the running application: the startup check completing, a
login, register or logout, the response stage handling the outcome of any
other call, or the document being loaded again. -/
inductive Step : App → App → Prop
  | checkAuthDone (s : App) (backend : Except ApiError (AxiosResponse User)) :
      s.checkAuthPending = true → Step s (checkAuthResume s backend).1
  | login (s : App) (username password : String)
      (backend : Except ApiError (AxiosResponse AuthData)) :
      Step s (login s username password backend).1
  | register (s : App) (email username password : String) (full_name : Option String)
      (backend : Except ApiError (AxiosResponse AuthData)) :
      Step s (register s email username password full_name backend).1
  | logout (s : App) : Step s (logout s).1
  | response (s : App) (config : RequestConfig)
      (backend : Except ApiError (AxiosResponse String)) :
      Step s (api.request s config backend).1
  | reload (s : App) : Step s (pageLoad s.localStorage s.location)

/-- States the application can be in: a document load followed by events. -/
inductive Reachable : App → Prop
  | start (ls : Dict) (location : String) : Reachable (pageLoad ls location)
  | step {s t : App} : Reachable s → Step s t → Reachable t

/-- An event within one document: what `Step` offers, the reload apart. -/
inductive Event where
  | checkAuthDone (backend : Except ApiError (AxiosResponse User))
  | login (username password : String) (backend : Except ApiError (AxiosResponse AuthData))
  | register (email username password : String) (full_name : Option String)
      (backend : Except ApiError (AxiosResponse AuthData))
  | logout
  | response (config : RequestConfig) (backend : Except ApiError (AxiosResponse String))

/-- The state after one event; the completion of the startup check only
happens when the check is suspended. -/
def applyEvent (s : App) : Event → App
  | .checkAuthDone backend => if s.checkAuthPending then (checkAuthResume s backend).1 else s
  | .login username password backend => (login s username password backend).1
  | .register email username password full_name backend =>
    (register s email username password full_name backend).1
  | .logout => (logout s).1
  | .response config backend => (api.request s config backend).1

/-- The state after a sequence of events. -/
def runEvents (s : App) (events : List Event) : App := events.foldl applyEvent s

/-! ## Sample values and states -/

/-- A sample profile record. -/
def farmer : User := { id := 7, username := "farmer1", fields := [] }

/-- A sample 401 error response, as the backend sends it for an expired token. -/
def unauthorizedResponse : ErrorResponse :=
  { status := 401, data := some { detail := some "Could not validate credentials" } }

/-- A sample axios error carrying the 401 response, whatever call it answers. -/
def unauthorized : ApiError :=
  { message := "Request failed with status code 401", response := some unauthorizedResponse }

/-- A sample transport failure: no response at all. -/
def networkError : ApiError := { message := "Network Error", response := none }

/-- A sample signed-in state: token `t1` stored, `farmer` as identity, the
startup check finished. -/
def signedIn : App :=
  { localStorage := ⟨[("token", "t1")]⟩, location := "/dashboard", documentLoads := [],
    user := some farmer, loading := false, navigations := [], toasts := [], console := [],
    requests := [], checkAuthPending := false }

/-- A document load with a stale token `old` in storage, then a successful
login while the startup check is still awaiting the profile. -/
def loginDuringCheck : App :=
  (login (pageLoad ⟨[("token", "old")]⟩ "/login") "farmer1" "secret12"
    (.ok { status := 200, data := { access_token := "t1", user := farmer } })).1

/-- The state `loginDuringCheck` once the startup check's profile request has
failed without a response. -/
def raceState : App := (checkAuthResume loginDuringCheck (.error networkError)).1

/-- A sample 401 error of the login endpoint: wrong password. -/
def wrongPassword : ApiError :=
  { message := "Request failed with status code 401",
    response := some { status := 401, data := some { detail := some "Incorrect username or password" } } }

/-- A sample 500 error without a payload. -/
def serverError : ApiError :=
  { message := "Request failed with status code 500",
    response := some { status := 500, data := none } }

/-- The signed-in sample state with the login page open. -/
def signedInAtLogin : App := { signedIn with location := "/login" }

/-- A sample registration form with the full-name field left empty. -/
def formWithoutName : RegisterForm :=
  { email := "f@example.org", username := "farmer1", password := "secret12", full_name := "" }

/-- A sample image file. -/
def leafPhoto : File := { name := "leaf.png", type := "image/png" }

/-- A sample file that is not an image. -/
def notesFile : File := { name := "notes.txt", type := "text/plain" }

/-- A sample image page showing the result of an earlier submit. -/
def pageWithResult : ImagePage :=
  { loading := false, result := some "leaf blight", selectedImage := some leafPhoto,
    previewUrl := some "blob:1" }

/-- The image page as first rendered: `useState(false)`, `useState(null)` three
times. -/
def freshImagePage : ImagePage :=
  { loading := false, result := none, selectedImage := none, previewUrl := none }

/-- A sample `URL.createObjectURL`. -/
def sampleObjectURL (file : File) : String := "blob:" ++ file.name

/-- The dashboard as first rendered (Dashboard.jsx 9-11). -/
def freshDashboard : DashboardState :=
  { loading := true, insights := none, cropPatterns := none }

/-- A form page showing the result of an earlier submit. -/
def formWithResult : FormPage := { loading := false, result := some "rice" }

/-- A sample crop form. -/
def sampleCropForm : CropForm :=
  { nitrogen := "90", phosphorus := "42", potassium := "43", temperature := "21",
    humidity := "82", ph := "6.5", rainfall := "203" }

/-- A sample irrigation form. -/
def sampleIrrigationForm : IrrigationForm :=
  { crop_type := "Rice", soil_moisture := "30", temperature := "28", humidity := "60",
    rainfall := "5", crop_stage := "vegetative" }

/-- A sample `parseFloat`: the text itself, `null` for the empty string. -/
def sampleParseFloat (s : String) : Option String := if s = "" then none else some s

/-! ## Dictionary lemmas -/

theorem lookup_filter_ne_self (k : String) (es : List (String × String)) :
    List.lookup k (es.filter (fun e => e.1 != k)) = none := by
  induction es with
  | nil => rfl
  | cons e es ih =>
    obtain ⟨a, b⟩ := e
    by_cases h : a = k
    · subst h
      simpa [List.filter_cons] using ih
    · have hk : (k == a) = false := by simpa using fun h2 => h h2.symm
      have ha : (a != k) = true := by simpa using h
      rw [List.filter_cons]
      simp only [ha, if_true, List.lookup, hk]
      exact ih

theorem lookup_filter_ne_other (k j : String) (h : j ≠ k) (es : List (String × String)) :
    List.lookup j (es.filter (fun e => e.1 != k)) = List.lookup j es := by
  induction es with
  | nil => rfl
  | cons e es ih =>
    obtain ⟨a, b⟩ := e
    by_cases ha : a = k
    · subst ha
      have hj : (j == a) = false := by simpa using h
      have hf : (a != a) = false := by simp
      rw [List.filter_cons]
      simp only [hf, List.lookup, hj]
      simpa using ih
    · have hf : (a != k) = true := by simpa using ha
      rw [List.filter_cons]
      simp only [hf, if_true, List.lookup]
      rw [ih]

theorem Dict.getItem_removeItem_self (d : Dict) (k : String) :
    (d.removeItem k).getItem k = none :=
  lookup_filter_ne_self k d.entries

theorem Dict.getItem_removeItem_other (d : Dict) (k j : String) (h : j ≠ k) :
    (d.removeItem k).getItem j = d.getItem j :=
  lookup_filter_ne_other k j h d.entries

theorem Dict.getItem_setItem_self (d : Dict) (k v : String) :
    (d.setItem k v).getItem k = some v := by
  simp [Dict.setItem, Dict.getItem, List.lookup]

theorem Dict.getItem_setItem_other (d : Dict) (k j v : String) (h : j ≠ k) :
    (d.setItem k v).getItem j = d.getItem j := by
  have hj : (j == k) = false := by simpa using h
  simp only [Dict.setItem, Dict.getItem, List.lookup, hj]
  exact lookup_filter_ne_other k j h d.entries

/-! ## Response stage and request stage -/

/-- C1: for every error whose response status is 401, and whatever request
config produced it, the rejected handler of the response stage returns with
the `token` entry removed from storage and the browser location assigned to
the path `/` (one document load logged); the same holds for a whole call
through the axios instance, and the handler rejects with the error. -/
theorem C1_unauthorized_teardown {α : Type} (s : App) (config : RequestConfig)
    (error : ApiError) (r : ErrorResponse)
    (hr : error.response = some r) (h401 : r.status = 401) :
    (@responseRejected α s error).1.localStorage.getItem "token" = none ∧
    (@responseRejected α s error).1.location = "/" ∧
    (@responseRejected α s error).1.documentLoads = s.documentLoads ++ ["/"] ∧
    (@responseRejected α s error).2 = .error error ∧
    (@api.request α s config (.error error)).1.localStorage.getItem "token" = none ∧
    (@api.request α s config (.error error)).1.location = "/" := by
  have h : error.response.map (fun r => r.status) = some 401 := by simp [hr, h401]
  simp [responseRejected, api.request, api.receive, api.send, h, App.setHref,
    App.storageRemove, Dict.getItem_removeItem_self]

/-- Witness of C1 at the signed-in sample state and the sample 401 error of a
crop-patterns call. -/
theorem C1_unauthorized_teardown_witness :
    unauthorized.response = some unauthorizedResponse ∧
    (@responseRejected String signedIn unauthorized).1.localStorage.getItem "token" = none ∧
    (@responseRejected String signedIn unauthorized).1.location = "/" :=
  ⟨rfl,
   (C1_unauthorized_teardown signedIn (api.getConfig "/crop-patterns") unauthorized
      unauthorizedResponse rfl rfl).1,
   (C1_unauthorized_teardown signedIn (api.getConfig "/crop-patterns") unauthorized
      unauthorizedResponse rfl rfl).2.1⟩

/-- C2 as stated fails: with the empty string stored under `token`, the
request stage attaches no `Authorization` header at all. -/
theorem C2_empty_token_no_header :
    (initialApp ⟨[("token", "")]⟩ "/").localStorage.getItem "token" = some "" ∧
    (requestFulfilled (initialApp ⟨[("token", "")]⟩ "/")
      (api.getConfig "/crop-patterns")).headers.getItem "Authorization" = none := by
  decide

/-- C2 amended: for every request config and every non-empty string `t` stored
under `token`, the request stage returns a config whose `Authorization`
header is exactly `"Bearer " ++ t`, with the method, url, body and every
other header as in the input. -/
theorem C2_bearer_header (s : App) (config : RequestConfig) (t : String)
    (ht : s.localStorage.getItem "token" = some t) (hne : t ≠ "") :
    (requestFulfilled s config).headers.getItem "Authorization" = some ("Bearer " ++ t) ∧
    (requestFulfilled s config).method = config.method ∧
    (requestFulfilled s config).url = config.url ∧
    (requestFulfilled s config).data = config.data ∧
    ∀ k : String, k ≠ "Authorization" →
      (requestFulfilled s config).headers.getItem k = config.headers.getItem k := by
  have htr : truthy (some t) = true := by simpa [truthy] using hne
  have heq : requestFulfilled s config =
      { config with headers := config.headers.setItem "Authorization" ("Bearer " ++ t) } := by
    simp only [requestFulfilled, ht, htr, if_true]
  rw [heq]
  exact ⟨Dict.getItem_setItem_self _ _ _, rfl, rfl, rfl,
    fun k hk => Dict.getItem_setItem_other _ _ _ _ hk⟩

/-- Witness of C2 amended: token `t1` gives `Authorization: Bearer t1`. -/
theorem C2_bearer_header_witness :
    signedIn.localStorage.getItem "token" = some "t1" ∧ "t1" ≠ "" ∧
    (requestFulfilled signedIn (api.getConfig "/crop-patterns")).headers.getItem
      "Authorization" = some ("Bearer " ++ "t1") :=
  ⟨by decide, by decide,
   (C2_bearer_header signedIn (api.getConfig "/crop-patterns") "t1" (by decide) (by decide)).1⟩

/-! ## Login and logout -/

/-- C3: for every prior state and every successful login response
`{access_token: t, user: u}`, afterwards storage holds `t` under `token`, the
identity is `u` and `isAuthenticated` is true, the navigation log has grown
by exactly the one entry `/` (which is also the location), and `login`
resolves with `{success: true}`. -/
theorem C3_login_success (s : App) (username password : String) (status : Nat)
    (t : String) (u : User) :
    (login s username password
      (.ok { status := status, data := { access_token := t, user := u } })).1.localStorage.getItem
        "token" = some t ∧
    (login s username password
      (.ok { status := status, data := { access_token := t, user := u } })).1.user = some u ∧
    (AuthProvider.value (login s username password
      (.ok { status := status, data := { access_token := t, user := u } })).1).isAuthenticated
        = true ∧
    (login s username password
      (.ok { status := status, data := { access_token := t, user := u } })).1.navigations
        = s.navigations ++ ["/"] ∧
    (login s username password
      (.ok { status := status, data := { access_token := t, user := u } })).1.location = "/" ∧
    (login s username password
      (.ok { status := status, data := { access_token := t, user := u } })).2
        = .ok { success := true, error := none } := by
  simp [login, apiService.login, responseData, api.request, api.receive, api.send,
    responseFulfilled, App.storageSet, App.setUser, App.navigate, App.toast,
    AuthProvider.value, truthyUser, Dict.getItem_setItem_self]

/-- C4: for every prior state, `logout` returns normally, sends no request to
the backend, and leaves storage without a `token`, the identity absent,
`isAuthenticated` false, and the navigation log grown by exactly the one
entry `/login`. -/
theorem C4_logout (s : App) :
    (logout s).2 = .ok () ∧
    (logout s).1.requests = s.requests ∧
    (logout s).1.localStorage.getItem "token" = none ∧
    (logout s).1.user = none ∧
    (AuthProvider.value (logout s).1).isAuthenticated = false ∧
    (logout s).1.navigations = s.navigations ++ ["/login"] := by
  simp [logout, App.storageRemove, App.setUser, App.navigate, App.toast,
    AuthProvider.value, truthyUser, Dict.getItem_removeItem_self]

/-! ## Session invariants -/

/-- The startup check suspends at the profile request exactly when the stored
token is truthy. -/
theorem checkAuthBegin_pending_iff (ls : Dict) (location : String) :
    (checkAuthBegin (initialApp ls location)).checkAuthPending = true ↔
      truthy (ls.getItem "token") = true := by
  by_cases h : truthy (ls.getItem "token") = true
  · simp [checkAuthBegin, initialApp, h]
  · simp [checkAuthBegin, initialApp, h, App.setLoading]

/-- C5: in every state reachable through document loads, the startup check,
login, register, logout and the response stage, the exposed
`isAuthenticated` flag is true if and only if the identity `user` (the one
the context value exposes, which is the session's) is present. -/
theorem C5_isAuthenticated_iff_user (s : App) (h : Reachable s) :
    (AuthProvider.value s).user = s.user ∧
    ((AuthProvider.value s).isAuthenticated = true ↔ s.user ≠ none) := by
  cases h with
  | start ls location =>
    refine ⟨rfl, ?_⟩
    cases hu : (pageLoad ls location).user <;> simp [AuthProvider.value, truthyUser, hu]
  | step _ _ =>
    refine ⟨rfl, ?_⟩
    cases hu : s.user <;> simp [AuthProvider.value, truthyUser, hu]

/-- Witness of C5 at the state right after a successful login that followed a
document load with empty storage. -/
theorem C5_isAuthenticated_iff_user_witness :
    Reachable (login (pageLoad ⟨[]⟩ "/login") "farmer1" "secret12"
      (.ok { status := 200, data := { access_token := "t1", user := farmer } })).1 ∧
    ((AuthProvider.value (login (pageLoad ⟨[]⟩ "/login") "farmer1" "secret12"
      (.ok { status := 200, data := { access_token := "t1", user := farmer } })).1).isAuthenticated
        = true ↔
      (login (pageLoad ⟨[]⟩ "/login") "farmer1" "secret12"
        (.ok { status := 200, data := { access_token := "t1", user := farmer } })).1.user
          ≠ none) :=
  ⟨Reachable.step (Reachable.start ⟨[]⟩ "/login") (Step.login _ _ _ _),
   (C5_isAuthenticated_iff_user _
      (Reachable.step (Reachable.start ⟨[]⟩ "/login") (Step.login _ _ _ _))).2⟩

/-- C6 as stated fails: after a document load with a stale token, a login
that succeeds while the startup check is in flight, and then the failure of
that check, the state is reachable, the identity is present and
`isAuthenticated` is true, yet storage holds no `token`. -/
theorem C6_identity_without_credential :
    Reachable raceState ∧ raceState.user = some farmer ∧
    (AuthProvider.value raceState).isAuthenticated = true ∧
    raceState.localStorage.getItem "token" = none :=
  ⟨Reachable.step
      (Reachable.step (Reachable.start ⟨[("token", "old")]⟩ "/login")
        (Step.login _ "farmer1" "secret12"
          (.ok { status := 200, data := { access_token := "t1", user := farmer } })))
      (Step.checkAuthDone loginDuringCheck (.error networkError) (by decide)),
   by decide, by decide, by decide⟩

/-- C6 amended: a successful login or register writes credential and identity
together and logout clears both together; a startup check that fetched the
profile from the initial state and failed ends with both absent; the 401
handler removes the credential and sends the browser to `/` by a document
load, leaving the in-memory identity as it was, and the provider that
document load mounts has the identity absent. -/
theorem C6_set_and_cleared (s : App) :
    (∀ (username password : String) (status : Nat) (t : String) (u : User),
      (login s username password
        (.ok { status := status, data := { access_token := t, user := u } })).1.localStorage.getItem
          "token" = some t ∧
      (login s username password
        (.ok { status := status, data := { access_token := t, user := u } })).1.user = some u) ∧
    (∀ (email username password : String) (full_name : Option String) (status : Nat)
        (t : String) (u : User),
      (register s email username password full_name
        (.ok { status := status, data := { access_token := t, user := u } })).1.localStorage.getItem
          "token" = some t ∧
      (register s email username password full_name
        (.ok { status := status, data := { access_token := t, user := u } })).1.user = some u) ∧
    ((logout s).1.localStorage.getItem "token" = none ∧ (logout s).1.user = none) ∧
    (∀ (ls : Dict) (location : String) (error : ApiError),
      (checkAuthBegin (initialApp ls location)).checkAuthPending = true →
      (checkAuth (initialApp ls location) (.error error)).1.localStorage.getItem "token" = none ∧
      (checkAuth (initialApp ls location) (.error error)).1.user = none) ∧
    (∀ (error : ApiError) (r : ErrorResponse), error.response = some r → r.status = 401 →
      (@responseRejected String s error).1.localStorage.getItem "token" = none ∧
      (@responseRejected String s error).1.documentLoads = s.documentLoads ++ ["/"] ∧
      (@responseRejected String s error).1.user = s.user ∧
      (pageLoad (@responseRejected String s error).1.localStorage
        (@responseRejected String s error).1.location).user = none) := by
  refine ⟨?_, ?_, ?_, ?_, ?_⟩
  · intro username password status t u
    simp [login, apiService.login, responseData, api.request, api.receive, api.send,
      responseFulfilled, App.storageSet, App.setUser, App.navigate, App.toast,
      Dict.getItem_setItem_self]
  · intro email username password full_name status t u
    simp [register, apiService.register, responseData, api.request, api.receive, api.send,
      responseFulfilled, App.storageSet, App.setUser, App.navigate, App.toast,
      Dict.getItem_setItem_self]
  · simp [logout, App.storageRemove, App.setUser, App.navigate, App.toast,
      Dict.getItem_removeItem_self]
  · intro ls location error hp
    by_cases h : error.response.map (fun r => r.status) = some 401
    · simp [checkAuth, hp, checkAuthResume, apiService.getProfileReceive, responseData,
        api.receive, responseRejected, h, App.consoleError, App.storageRemove, App.setLoading,
        App.setHref, Dict.getItem_removeItem_self]
      simp [checkAuthBegin, (checkAuthBegin_pending_iff ls location).mp hp,
        apiService.getProfileSend, api.send, initialApp]
    · simp [checkAuth, hp, checkAuthResume, apiService.getProfileReceive, responseData,
        api.receive, responseRejected, h, App.consoleError, App.storageRemove, App.setLoading,
        Dict.getItem_removeItem_self]
      simp [checkAuthBegin, (checkAuthBegin_pending_iff ls location).mp hp,
        apiService.getProfileSend, api.send, initialApp]
  · intro error r hr h401
    have h : error.response.map (fun r => r.status) = some 401 := by simp [hr, h401]
    simp only [responseRejected, h, if_true]
    refine ⟨by simp [App.setHref, App.storageRemove, Dict.getItem_removeItem_self],
      by simp [App.setHref, App.storageRemove], by simp [App.setHref, App.storageRemove], ?_⟩
    simp only [pageLoad, mount, checkAuthBegin]
    split <;> simp [apiService.getProfileSend, api.send, initialApp, App.setLoading]

/-- Witness of C6 amended at the signed-in sample state: the 401 handler and
a failed startup check over a stored token `t1`. -/
theorem C6_set_and_cleared_witness :
    (unauthorized.response = some unauthorizedResponse ∧
      (@responseRejected String signedIn unauthorized).1.user = signedIn.user) ∧
    ((checkAuthBegin (initialApp ⟨[("token", "t1")]⟩ "/")).checkAuthPending = true ∧
      (checkAuth (initialApp ⟨[("token", "t1")]⟩ "/") (.error networkError)).1.user = none) :=
  ⟨⟨rfl, ((C6_set_and_cleared signedIn).2.2.2.2 unauthorized _ rfl rfl).2.2.1⟩,
   ⟨by decide,
    ((C6_set_and_cleared signedIn).2.2.2.1 ⟨[("token", "t1")]⟩ "/" networkError
      (by decide)).2⟩⟩

/-- C7 as stated fails: in the signed-in sample state a 401 answer to the
crop-patterns call leaves the credential removed but the identity present and
`isAuthenticated` true, where logout leaves the identity absent. -/
theorem C7_identity_survives_401 :
    (apiService.getCropPatterns signedIn (.error unauthorized)).1.localStorage.getItem "token"
      = none ∧
    (apiService.getCropPatterns signedIn (.error unauthorized)).1.user = some farmer ∧
    (AuthProvider.value
      (apiService.getCropPatterns signedIn (.error unauthorized)).1).isAuthenticated = true ∧
    (logout signedIn).1.user = none := by
  decide

/-- C7 amended: for every authenticated state and every 401 error response to
any call, after the response stage has handled it the stored credential is
absent and the browser has been sent to `/` by a document load; the handler
leaves the identity and `isAuthenticated` as they were, and the provider
mounted by that document load is anonymous at once (identity absent, loading
false, `isAuthenticated` false) with no credential and no request sent. -/
theorem C7_unauthorized_then_reload {α : Type} (s : App) (u : User) (config : RequestConfig)
    (error : ApiError) (r : ErrorResponse)
    (hu : s.user = some u) (hr : error.response = some r) (h401 : r.status = 401) :
    (@api.request α s config (.error error)).1.localStorage.getItem "token" = none ∧
    (@api.request α s config (.error error)).1.location = "/" ∧
    (@api.request α s config (.error error)).1.documentLoads = s.documentLoads ++ ["/"] ∧
    (@api.request α s config (.error error)).1.user = some u ∧
    (AuthProvider.value (@api.request α s config (.error error)).1).isAuthenticated = true ∧
    (pageLoad (@api.request α s config (.error error)).1.localStorage
      (@api.request α s config (.error error)).1.location).user = none ∧
    (pageLoad (@api.request α s config (.error error)).1.localStorage
      (@api.request α s config (.error error)).1.location).loading = false ∧
    (AuthProvider.value (pageLoad (@api.request α s config (.error error)).1.localStorage
      (@api.request α s config (.error error)).1.location)).isAuthenticated = false ∧
    (pageLoad (@api.request α s config (.error error)).1.localStorage
      (@api.request α s config (.error error)).1.location).localStorage.getItem "token" = none ∧
    (pageLoad (@api.request α s config (.error error)).1.localStorage
      (@api.request α s config (.error error)).1.location).requests = [] := by
  have h : error.response.map (fun r => r.status) = some 401 := by simp [hr, h401]
  have hs : (@api.request α s config (.error error)).1 =
      ((api.send s config).storageRemove "token").setHref "/" := by
    simp [api.request, api.receive, responseRejected, h]
  have hnone : (((api.send s config).storageRemove "token").setHref "/").localStorage.getItem
      "token" = none := by
    simp [App.setHref, App.storageRemove, Dict.getItem_removeItem_self]
  have hfalsy : truthy ((((api.send s config).storageRemove "token").setHref
      "/").localStorage.getItem "token") = false := by
    rw [hnone]; rfl
  rw [hs]
  refine ⟨hnone, rfl, ?_, ?_, ?_, ?_, ?_, ?_, ?_, ?_⟩
  · simp [App.setHref, App.storageRemove, api.send]
  · simp [App.setHref, App.storageRemove, api.send, hu]
  · simp [AuthProvider.value, App.setHref, App.storageRemove, api.send, hu, truthyUser]
  · simp [pageLoad, mount, checkAuthBegin, initialApp, hfalsy, App.setLoading]
  · simp [pageLoad, mount, checkAuthBegin, initialApp, hfalsy, App.setLoading]
  · simp [pageLoad, mount, checkAuthBegin, initialApp, hfalsy, App.setLoading,
      AuthProvider.value, truthyUser]
  · simp only [pageLoad, mount, checkAuthBegin, initialApp, hfalsy, App.setLoading]
    simpa using hnone
  · simp [pageLoad, mount, checkAuthBegin, initialApp, hfalsy, App.setLoading]

/-- Witness of C7 amended: the signed-in sample state and a 401 answer to the
crop-patterns request. -/
theorem C7_unauthorized_then_reload_witness :
    signedIn.user = some farmer ∧
    unauthorized.response = some unauthorizedResponse ∧
    (@api.request String signedIn (api.getConfig "/crop-patterns")
      (.error unauthorized)).1.user = some farmer ∧
    (pageLoad (@api.request String signedIn (api.getConfig "/crop-patterns")
        (.error unauthorized)).1.localStorage
      (@api.request String signedIn (api.getConfig "/crop-patterns")
        (.error unauthorized)).1.location).user = none :=
  ⟨rfl, rfl,
   (C7_unauthorized_then_reload signedIn farmer (api.getConfig "/crop-patterns") unauthorized
      _ rfl rfl rfl).2.2.2.1,
   (C7_unauthorized_then_reload signedIn farmer (api.getConfig "/crop-patterns") unauthorized
      _ rfl rfl rfl).2.2.2.2.2.1⟩

/-! ## Startup check -/

/-- C8: if storage holds no credential (no `token` entry, or the empty string)
when the startup check runs from the initial state, then whatever the
backend would answer no request is sent and the check does not suspend, the
identity stays absent, `loading` becomes false and `isAuthenticated` is
false, and the check returns normally. -/
theorem C8_startup_without_credential (ls : Dict) (location : String)
    (backend : Except ApiError (AxiosResponse User))
    (h : ls.getItem "token" = none ∨ ls.getItem "token" = some "") :
    (checkAuth (initialApp ls location) backend).1.requests = [] ∧
    (checkAuthBegin (initialApp ls location)).checkAuthPending = false ∧
    (checkAuth (initialApp ls location) backend).1.user = none ∧
    (checkAuth (initialApp ls location) backend).1.loading = false ∧
    (AuthProvider.value (checkAuth (initialApp ls location) backend).1).isAuthenticated = false ∧
    (checkAuth (initialApp ls location) backend).2 = .ok () := by
  have hf : truthy (ls.getItem "token") = false := by
    rcases h with h | h <;> rw [h] <;> rfl
  simp [checkAuth, checkAuthBegin, initialApp, hf, App.setLoading, AuthProvider.value,
    truthyUser]

/-- Witness of C8: a document load over empty storage. -/
theorem C8_startup_without_credential_witness :
    ((⟨[]⟩ : Dict).getItem "token" = none ∨ (⟨[]⟩ : Dict).getItem "token" = some "") ∧
    (checkAuth (initialApp ⟨[]⟩ "/dashboard") (.ok { status := 200, data := farmer })).1.requests
      = [] ∧
    (checkAuth (initialApp ⟨[]⟩ "/dashboard") (.ok { status := 200, data := farmer })).1.loading
      = false :=
  ⟨Or.inl rfl,
   (C8_startup_without_credential ⟨[]⟩ "/dashboard" (.ok { status := 200, data := farmer })
      (Or.inl rfl)).1,
   (C8_startup_without_credential ⟨[]⟩ "/dashboard" (.ok { status := 200, data := farmer })
      (Or.inl rfl)).2.2.2.1⟩

/-- C9: if storage holds `t` under `token` when the startup check runs from the
initial state, the check fetches the profile, and the fetch succeeds with
identity `u`, then afterwards the identity is exactly `u`, `isAuthenticated`
is true, `loading` is false, storage still holds `t`, and the one request
sent is the profile request carrying `Bearer t`. -/
theorem C9_startup_profile_success (ls : Dict) (location : String) (t : String)
    (status : Nat) (u : User)
    (ht : ls.getItem "token" = some t)
    (hfetch : (checkAuthBegin (initialApp ls location)).checkAuthPending = true) :
    (checkAuth (initialApp ls location) (.ok { status := status, data := u })).1.user = some u ∧
    (AuthProvider.value
      (checkAuth (initialApp ls location) (.ok { status := status, data := u })).1).isAuthenticated
        = true ∧
    (checkAuth (initialApp ls location) (.ok { status := status, data := u })).1.loading
      = false ∧
    (checkAuth (initialApp ls location)
      (.ok { status := status, data := u })).1.localStorage.getItem "token" = some t ∧
    (checkAuth (initialApp ls location) (.ok { status := status, data := u })).1.requests
      = [{ apiService.getProfileConfig with
            headers := defaultHeaders.setItem "Authorization" ("Bearer " ++ t) }] ∧
    (checkAuth (initialApp ls location) (.ok { status := status, data := u })).2 = .ok () := by
  have htr : truthy (ls.getItem "token") = true := (checkAuthBegin_pending_iff ls location).mp hfetch
  have htr2 : truthy (some t) = true := by rw [← ht]; exact htr
  simp [checkAuth, hfetch, checkAuthResume, apiService.getProfileReceive, responseData,
    api.receive, responseFulfilled, App.setUser, App.setLoading, AuthProvider.value, truthyUser]
  simp [checkAuthBegin, initialApp, htr, apiService.getProfileSend, api.send, ht,
    requestFulfilled, htr2, apiService.getProfileConfig, api.getConfig]

/-- Witness of C9: token `t1` stored, profile `farmer` fetched. -/
theorem C9_startup_profile_success_witness :
    (⟨[("token", "t1")]⟩ : Dict).getItem "token" = some "t1" ∧
    (checkAuthBegin (initialApp ⟨[("token", "t1")]⟩ "/dashboard")).checkAuthPending = true ∧
    (checkAuth (initialApp ⟨[("token", "t1")]⟩ "/dashboard")
      (.ok { status := 200, data := farmer })).1.user = some farmer ∧
    (checkAuth (initialApp ⟨[("token", "t1")]⟩ "/dashboard")
      (.ok { status := 200, data := farmer })).1.localStorage.getItem "token" = some "t1" :=
  ⟨by decide, by decide,
   (C9_startup_profile_success ⟨[("token", "t1")]⟩ "/dashboard" "t1" 200 farmer
      (by decide) (by decide)).1,
   (C9_startup_profile_success ⟨[("token", "t1")]⟩ "/dashboard" "t1" 200 farmer
      (by decide) (by decide)).2.2.2.1⟩

/-- C10: if storage holds `t` under `token` when the startup check runs from
the initial state, the check fetches the profile, and the fetch fails with
any error (any response status, or no response), then afterwards storage
holds no `token`, the identity is absent, `isAuthenticated` is false and
`loading` is false, the one request sent is the profile request carrying
`Bearer t`, and the check returns normally: nothing is rethrown. -/
theorem C10_startup_profile_failure (ls : Dict) (location : String) (t : String)
    (error : ApiError)
    (ht : ls.getItem "token" = some t)
    (hfetch : (checkAuthBegin (initialApp ls location)).checkAuthPending = true) :
    (checkAuth (initialApp ls location) (.error error)).1.localStorage.getItem "token" = none ∧
    (checkAuth (initialApp ls location) (.error error)).1.user = none ∧
    (AuthProvider.value (checkAuth (initialApp ls location) (.error error)).1).isAuthenticated
      = false ∧
    (checkAuth (initialApp ls location) (.error error)).1.loading = false ∧
    (checkAuth (initialApp ls location) (.error error)).1.requests
      = [{ apiService.getProfileConfig with
            headers := defaultHeaders.setItem "Authorization" ("Bearer " ++ t) }] ∧
    (checkAuth (initialApp ls location) (.error error)).2 = .ok () := by
  have htr : truthy (ls.getItem "token") = true := (checkAuthBegin_pending_iff ls location).mp hfetch
  have htr2 : truthy (some t) = true := by rw [← ht]; exact htr
  have hs : (checkAuthBegin (initialApp ls location)).user = none := by
    simp [checkAuthBegin, initialApp, htr, apiService.getProfileSend, api.send]
  have hq : (checkAuthBegin (initialApp ls location)).requests
      = [{ apiService.getProfileConfig with
            headers := defaultHeaders.setItem "Authorization" ("Bearer " ++ t) }] := by
    simp [checkAuthBegin, initialApp, htr, apiService.getProfileSend, api.send, ht,
      requestFulfilled, htr2, apiService.getProfileConfig, api.getConfig]
  by_cases h : error.response.map (fun r => r.status) = some 401
  · simp [checkAuth, hfetch, checkAuthResume, apiService.getProfileReceive, responseData,
      api.receive, responseRejected, h, App.consoleError, App.storageRemove, App.setLoading,
      App.setHref, Dict.getItem_removeItem_self, AuthProvider.value, truthyUser, hs, hq]
  · simp [checkAuth, hfetch, checkAuthResume, apiService.getProfileReceive, responseData,
      api.receive, responseRejected, h, App.consoleError, App.storageRemove, App.setLoading,
      Dict.getItem_removeItem_self, AuthProvider.value, truthyUser, hs, hq]

/-- Witness of C10: token `t1` stored, the profile request dies without a
response. -/
theorem C10_startup_profile_failure_witness :
    (⟨[("token", "t1")]⟩ : Dict).getItem "token" = some "t1" ∧
    (checkAuthBegin (initialApp ⟨[("token", "t1")]⟩ "/dashboard")).checkAuthPending = true ∧
    (checkAuth (initialApp ⟨[("token", "t1")]⟩ "/dashboard")
      (.error networkError)).1.localStorage.getItem "token" = none ∧
    (checkAuth (initialApp ⟨[("token", "t1")]⟩ "/dashboard") (.error networkError)).1.loading
      = false :=
  ⟨by decide, by decide,
   (C10_startup_profile_failure ⟨[("token", "t1")]⟩ "/dashboard" "t1" networkError
      (by decide) (by decide)).1,
   (C10_startup_profile_failure ⟨[("token", "t1")]⟩ "/dashboard" "t1" networkError
      (by decide) (by decide)).2.2.2.1⟩

/-! ## Pipeline lemmas -/

theorem Dict.removeItem_removeItem (d : Dict) (k : String) :
    (d.removeItem k).removeItem k = d.removeItem k := by
  simp [Dict.removeItem, List.filter_filter]

theorem requestFulfilled_data (s : App) (config : RequestConfig) :
    (requestFulfilled s config).data = config.data := by
  unfold requestFulfilled
  split
  · split <;> rfl
  · rfl

theorem requestFulfilled_of_falsy (s : App) (config : RequestConfig)
    (h : truthy (s.localStorage.getItem "token") = false) :
    requestFulfilled s config = config := by
  unfold requestFulfilled
  split
  · rename_i token ht
    rw [ht] at h
    simp [h]
  · rfl

theorem requestFulfilled_of_truthy (s : App) (config : RequestConfig) (t : String)
    (ht : s.localStorage.getItem "token" = some t) (hne : t ≠ "") :
    requestFulfilled s config =
      { config with headers := config.headers.setItem "Authorization" ("Bearer " ++ t) } := by
  have htr : truthy (some t) = true := by simpa [truthy] using hne
  simp only [requestFulfilled, ht, htr, if_true]

theorem status_map_of_unauthorized (error : ApiError) (r : ErrorResponse)
    (hr : error.response = some r) (h401 : r.status = 401) :
    error.response.map (fun r => r.status) = some 401 := by
  simp [hr, h401]

theorem responseRejected_of_unauthorized {α : Type} (s : App) (error : ApiError)
    (h : error.response.map (fun r => r.status) = some 401) :
    @responseRejected α s error = ((s.storageRemove "token").setHref "/", .error error) := by
  simp [responseRejected, h]

theorem responseRejected_of_other {α : Type} (s : App) (error : ApiError)
    (h : ¬ error.response.map (fun r => r.status) = some 401) :
    @responseRejected α s error = (s, .error error) := by
  simp [responseRejected, h]

theorem errorMessage_of_detail (error : ApiError) (fallback : String) (r : ErrorResponse)
    (d : ErrorData) (m : String) (hr : error.response = some r) (hd : r.data = some d)
    (hm : d.detail = some m) (hne : m ≠ "") : errorMessage error fallback = m := by
  have htr : truthy (some m) = true := by simpa [truthy] using hne
  simp [errorMessage, hr, hd, hm, htr]

theorem errorMessage_of_falsy (error : ApiError) (fallback : String)
    (h : truthy ((error.response.bind (fun r => r.data)).bind (fun d => d.detail)) = false) :
    errorMessage error fallback = fallback := by
  unfold errorMessage
  cases hd : (error.response.bind (fun r => r.data)).bind (fun d => d.detail) with
  | none => rfl
  | some m =>
    rw [hd] at h
    simp [h]

/-! ## Failures of login and register -/

/-- C11: for every rejection `e` of the login call, `login` resolves (it never
throws) with `{success: false, error: m}`; `m` is `e.response.data.detail`
when that is present and non-empty, and `Login failed` when there is no
response, no payload, no detail or an empty detail; and the `catch` branch
of `login` itself only adds the error toast: the state it returns is the
state in which the call was rejected plus that toast, so storage, identity,
navigation log and location are as the rejected call left them. -/
theorem C11_login_failure (s : App) (username password : String) (e : ApiError) :
    (login s username password (.error e)).2
      = .ok { success := false, error := some (errorMessage e "Login failed") } ∧
    (∀ (r : ErrorResponse) (d : ErrorData) (m : String),
      e.response = some r → r.data = some d → d.detail = some m → m ≠ "" →
      errorMessage e "Login failed" = m) ∧
    (e.response = none → errorMessage e "Login failed" = "Login failed") ∧
    (∀ r : ErrorResponse, e.response = some r → r.data = none →
      errorMessage e "Login failed" = "Login failed") ∧
    (∀ (r : ErrorResponse) (d : ErrorData), e.response = some r → r.data = some d →
      d.detail = none ∨ d.detail = some "" → errorMessage e "Login failed" = "Login failed") ∧
    (login s username password (.error e)).1
      = (apiService.login s username password (.error e)).1.toast .error
          (errorMessage e "Login failed") ∧
    (login s username password (.error e)).1.localStorage
      = (apiService.login s username password (.error e)).1.localStorage ∧
    (login s username password (.error e)).1.user
      = (apiService.login s username password (.error e)).1.user ∧
    (login s username password (.error e)).1.navigations
      = (apiService.login s username password (.error e)).1.navigations ∧
    (login s username password (.error e)).1.location
      = (apiService.login s username password (.error e)).1.location := by
  have hcall : (apiService.login s username password (.error e)).2 = .error e := by
    simp [apiService.login, responseData, api.request, api.receive, responseRejected]
  have hlogin : login s username password (.error e)
      = ((apiService.login s username password (.error e)).1.toast .error
          (errorMessage e "Login failed"),
         .ok { success := false, error := some (errorMessage e "Login failed") }) := by
    unfold login
    rcases hp : apiService.login s username password (.error e) with ⟨s1, res⟩
    rw [hp] at hcall
    simp only at hcall
    subst hcall
    rfl
  refine ⟨by rw [hlogin], ?_, ?_, ?_, ?_, by rw [hlogin], by rw [hlogin]; rfl,
    by rw [hlogin]; rfl, by rw [hlogin]; rfl, by rw [hlogin]; rfl⟩
  · intro r d m hr hd hm hne
    exact errorMessage_of_detail e _ r d m hr hd hm hne
  · intro hr
    exact errorMessage_of_falsy e _ (by simp [hr, truthy])
  · intro r hr hd
    exact errorMessage_of_falsy e _ (by simp [hr, hd, truthy])
  · intro r d hr hd hm
    rcases hm with hm | hm
    · exact errorMessage_of_falsy e _ (by simp [hr, hd, hm, truthy])
    · exact errorMessage_of_falsy e _ (by simp [hr, hd, hm, truthy])

/-- Witness of C11: a wrong password answered with a detail, and a transport
failure answered with the fallback. -/
theorem C11_login_failure_witness :
    (login signedInAtLogin "farmer1" "wrong" (.error wrongPassword)).2
      = .ok { success := false, error := some "Incorrect username or password" } ∧
    (networkError.response = none ∧ errorMessage networkError "Login failed" = "Login failed") :=
  ⟨((C11_login_failure signedInAtLogin "farmer1" "wrong" wrongPassword).2.1
      { status := 401, data := some { detail := some "Incorrect username or password" } }
      { detail := some "Incorrect username or password" } "Incorrect username or password"
      rfl rfl rfl (by decide)) ▸
    (C11_login_failure signedInAtLogin "farmer1" "wrong" wrongPassword).1,
   ⟨rfl, (C11_login_failure signedInAtLogin "farmer1" "wrong" networkError).2.2.1 rfl⟩⟩

/-- C12 as stated fails: with the login page open over a stored token `t1`, a
login answered 401 ends with the token removed and the location changed from
`/login` to `/`. -/
theorem C12_failed_login_401_tears_down :
    signedInAtLogin.localStorage.getItem "token" = some "t1" ∧
    signedInAtLogin.location = "/login" ∧
    (login signedInAtLogin "farmer1" "wrong" (.error wrongPassword)).2
      = .ok { success := false, error := some "Incorrect username or password" } ∧
    (login signedInAtLogin "farmer1" "wrong"
      (.error wrongPassword)).1.localStorage.getItem "token" = none ∧
    (login signedInAtLogin "farmer1" "wrong" (.error wrongPassword)).1.location = "/" :=
  ⟨by decide, by decide, rfl, by decide, by decide⟩

/-- C12 amended: for every failed login or register call taken end to end
through the request pipeline whose error is not a response with status 401
(any other status, or no response at all), storage, identity and location
after the call equal those before it; when the error response has status
401 the identity is still as before, while the response stage has removed
the stored credential and sent the browser to `/`. -/
theorem C12_failure_is_local (s : App) (username password email : String)
    (full_name : Option String) (e : ApiError)
    (h : ¬ e.response.map (fun r => r.status) = some 401) :
    ((login s username password (.error e)).1.localStorage = s.localStorage ∧
      (login s username password (.error e)).1.user = s.user ∧
      (login s username password (.error e)).1.location = s.location) ∧
    ((register s email username password full_name (.error e)).1.localStorage = s.localStorage ∧
      (register s email username password full_name (.error e)).1.user = s.user ∧
      (register s email username password full_name (.error e)).1.location = s.location) ∧
    (∀ e401 : ApiError, e401.response.map (fun r => r.status) = some 401 →
      ((login s username password (.error e401)).1.user = s.user ∧
        (login s username password (.error e401)).1.localStorage.getItem "token" = none ∧
        (login s username password (.error e401)).1.location = "/") ∧
      ((register s email username password full_name (.error e401)).1.user = s.user ∧
        (register s email username password full_name
          (.error e401)).1.localStorage.getItem "token" = none ∧
        (register s email username password full_name (.error e401)).1.location = "/")) := by
  refine ⟨?_, ?_, ?_⟩
  · simp [login, apiService.login, responseData, api.request, api.receive,
      responseRejected_of_other _ _ h, api.send, App.toast]
  · simp [register, apiService.register, responseData, api.request, api.receive,
      responseRejected_of_other _ _ h, api.send, App.toast]
  · intro e401 h401
    constructor
    · simp [login, apiService.login, responseData, api.request, api.receive,
        responseRejected_of_unauthorized _ _ h401, api.send, App.toast, App.setHref,
        App.storageRemove, Dict.getItem_removeItem_self]
    · simp [register, apiService.register, responseData, api.request, api.receive,
        responseRejected_of_unauthorized _ _ h401, api.send, App.toast, App.setHref,
        App.storageRemove, Dict.getItem_removeItem_self]

/-- Witness of C12 amended: a 500 answer to a login and to a registration over
the signed-in state with the login page open. -/
theorem C12_failure_is_local_witness :
    (¬ serverError.response.map (fun r => r.status) = some 401) ∧
    (login signedInAtLogin "farmer1" "wrong" (.error serverError)).1.localStorage
      = signedInAtLogin.localStorage ∧
    (login signedInAtLogin "farmer1" "wrong" (.error serverError)).1.location
      = signedInAtLogin.location :=
  ⟨by decide,
   (C12_failure_is_local signedInAtLogin "farmer1" "wrong" "f@example.org" none serverError
      (by decide)).1.1,
   (C12_failure_is_local signedInAtLogin "farmer1" "wrong" "f@example.org" none serverError
      (by decide)).1.2.2⟩

/-! ## Response stage: pass-through and rejection -/

/-- C13: for every outcome that is not an error with response status 401 (a
fulfilled response, an error with another status, an error without a
response), the response stage hands back exactly the outcome it received
(the same response resolved, the same error rejected, not another error
raised on the way) and returns the state it was given, so storage and
location are unchanged. -/
theorem C13_passthrough {α : Type} (s : App) (backend : Except ApiError (AxiosResponse α))
    (h : ∀ (e : ApiError) (r : ErrorResponse),
      backend = .error e → e.response = some r → r.status ≠ 401) :
    api.receive s backend = (s, backend) ∧
    (api.receive s backend).1.localStorage = s.localStorage ∧
    (api.receive s backend).1.location = s.location ∧
    (api.receive s backend).1.documentLoads = s.documentLoads := by
  have key : api.receive s backend = (s, backend) := by
    cases backend with
    | ok response => rfl
    | error e =>
      have hn : ¬ e.response.map (fun r => r.status) = some 401 := by
        cases hr : e.response with
        | none => simp
        | some r => simpa using h e r rfl hr
      simp [api.receive, responseRejected_of_other _ _ hn]
  rw [key]
  exact ⟨rfl, rfl, rfl, rfl⟩

/-- Witness of C13: a transport failure reaching the signed-in sample state. -/
theorem C13_passthrough_witness :
    (∀ (e : ApiError) (r : ErrorResponse),
      (.error networkError : Except ApiError (AxiosResponse String)) = .error e →
      e.response = some r → r.status ≠ 401) ∧
    @api.receive String signedIn (.error networkError) = (signedIn, .error networkError) :=
  ⟨fun e r he hr => (by cases he; cases hr),
   (C13_passthrough signedIn (.error networkError)
      (fun e r he hr => (by cases he; cases hr))).1⟩

/-- C14 as stated fails: the 401 answer to the crop-patterns call reaches the
caller as a rejection with that very error. -/
theorem C14_unauthorized_is_rejected :
    (apiService.getCropPatterns signedIn (.error unauthorized)).2 = .error unauthorized :=
  rfl

/-- C14 amended: an authorization failure triggers the teardown inside the
request pipeline and is then surfaced to the caller like any other error:
for every 401 error response to any call, with the credential removed and
the location assigned, the promise the caller awaits rejects with that same
error, and `login` receives it in its `catch`. -/
theorem C14_unauthorized_surfaces {α : Type} (s : App) (config : RequestConfig)
    (error : ApiError) (r : ErrorResponse)
    (hr : error.response = some r) (h401 : r.status = 401) :
    (@api.request α s config (.error error)).2 = .error error ∧
    (responseData (@api.request α s config (.error error))).2 = .error error ∧
    (@api.request α s config (.error error)).1.localStorage.getItem "token" = none ∧
    (@api.request α s config (.error error)).1.location = "/" ∧
    (∀ username password : String,
      (apiService.login s username password (.error error)).2 = .error error ∧
      (login s username password (.error error)).2
        = .ok { success := false, error := some (errorMessage error "Login failed") }) := by
  have h := status_map_of_unauthorized error r hr h401
  simp [api.request, api.receive, responseRejected_of_unauthorized _ _ h, responseData,
    App.setHref, App.storageRemove, Dict.getItem_removeItem_self, login, apiService.login,
    api.send, App.toast]

/-- Witness of C14 amended: the sample 401 error answering the crop-patterns
request. -/
theorem C14_unauthorized_surfaces_witness :
    unauthorized.response = some unauthorizedResponse ∧ unauthorizedResponse.status = 401 ∧
    (@api.request String signedIn (api.getConfig "/crop-patterns") (.error unauthorized)).2
      = .error unauthorized :=
  ⟨rfl, rfl,
   (C14_unauthorized_surfaces signedIn (api.getConfig "/crop-patterns") unauthorized
      unauthorizedResponse rfl rfl).1⟩

/-! ## Request stage and the credential slot -/

theorem login_success_token (s : App) (username password : String) (status : Nat)
    (t : String) (u : User) :
    (login s username password
      (.ok { status := status, data := { access_token := t, user := u } })).1.localStorage.getItem
        "token" = some t := by
  simp [login, apiService.login, responseData, api.request, api.receive, api.send,
    responseFulfilled, App.storageSet, App.setUser, App.navigate, App.toast,
    Dict.getItem_setItem_self]

theorem register_success_token (s : App) (email username password : String)
    (full_name : Option String) (status : Nat) (t : String) (u : User) :
    (register s email username password full_name
      (.ok { status := status, data := { access_token := t, user := u } })).1.localStorage.getItem
        "token" = some t := by
  simp [register, apiService.register, responseData, api.request, api.receive, api.send,
    responseFulfilled, App.storageSet, App.setUser, App.navigate, App.toast,
    Dict.getItem_setItem_self]

theorem logout_token (s : App) : (logout s).1.localStorage.getItem "token" = none := by
  simp [logout, App.storageRemove, App.setUser, App.navigate, App.toast,
    Dict.getItem_removeItem_self]

/-- C15: when storage holds no credential (the `token` entry is absent or is
the empty string) the request stage returns the config exactly as it
received it, so no `Authorization` header is added; and for every state and
config, running the request stage leaves storage as it was. -/
theorem C15_no_credential_no_header (s : App) (config : RequestConfig)
    (h : s.localStorage.getItem "token" = none ∨ s.localStorage.getItem "token" = some "") :
    requestFulfilled s config = config ∧
    (requestFulfilled s config).headers.getItem "Authorization"
      = config.headers.getItem "Authorization" ∧
    (∀ (s2 : App) (c2 : RequestConfig), (api.send s2 c2).localStorage = s2.localStorage) := by
  have hf : truthy (s.localStorage.getItem "token") = false := by
    rcases h with h | h <;> rw [h] <;> rfl
  have key := requestFulfilled_of_falsy s config hf
  rw [key]
  exact ⟨rfl, rfl, fun _ _ => rfl⟩

/-- Witness of C15: the empty string stored under `token`. -/
theorem C15_no_credential_no_header_witness :
    ((initialApp ⟨[("token", "")]⟩ "/").localStorage.getItem "token" = none ∨
      (initialApp ⟨[("token", "")]⟩ "/").localStorage.getItem "token" = some "") ∧
    requestFulfilled (initialApp ⟨[("token", "")]⟩ "/") (api.getConfig "/farmer-insights")
      = api.getConfig "/farmer-insights" :=
  ⟨Or.inr (by decide),
   (C15_no_credential_no_header (initialApp ⟨[("token", "")]⟩ "/")
      (api.getConfig "/farmer-insights") (Or.inr (by decide))).1⟩

/-- C16: right after a successful login or register that returned a non-empty
token `t`, the request stage gives every config the header
`Authorization: Bearer t`, whatever was stored before; right after logout it
returns every config as it received it, attaching no `Authorization`
header, whatever was stored before. -/
theorem C16_latest_write (s : App) (config : RequestConfig)
    (username password email : String) (full_name : Option String) (status : Nat)
    (t : String) (u : User) (hne : t ≠ "") :
    (requestFulfilled (login s username password
      (.ok { status := status, data := { access_token := t, user := u } })).1
        config).headers.getItem "Authorization" = some ("Bearer " ++ t) ∧
    (requestFulfilled (register s email username password full_name
      (.ok { status := status, data := { access_token := t, user := u } })).1
        config).headers.getItem "Authorization" = some ("Bearer " ++ t) ∧
    requestFulfilled (logout s).1 config = config := by
  refine ⟨?_, ?_, ?_⟩
  · rw [requestFulfilled_of_truthy _ config t
      (login_success_token s username password status t u) hne]
    exact Dict.getItem_setItem_self _ _ _
  · rw [requestFulfilled_of_truthy _ config t
      (register_success_token s email username password full_name status t u) hne]
    exact Dict.getItem_setItem_self _ _ _
  · exact requestFulfilled_of_falsy _ config (by rw [logout_token]; rfl)

/-- Witness of C16: a login returning `t2` over the signed-in sample state,
which held `t1`. -/
theorem C16_latest_write_witness :
    "t2" ≠ "" ∧
    (requestFulfilled (login signedIn "farmer1" "secret12"
      (.ok { status := 200, data := { access_token := "t2", user := farmer } })).1
        (api.getConfig "/crop-patterns")).headers.getItem "Authorization"
      = some ("Bearer " ++ "t2") ∧
    requestFulfilled (logout signedIn).1 (api.getConfig "/crop-patterns")
      = api.getConfig "/crop-patterns" :=
  ⟨by decide,
   (C16_latest_write signedIn (api.getConfig "/crop-patterns") "farmer1" "secret12"
      "f@example.org" none 200 "t2" farmer (by decide)).1,
   (C16_latest_write signedIn (api.getConfig "/crop-patterns") "farmer1" "secret12"
      "f@example.org" none 200 "t2" farmer (by decide)).2.2⟩

/-! ## Register -/

theorem errorMessage_fallbacks (e : ApiError) (f1 f2 : String) :
    errorMessage e f1 = errorMessage e f2 ∨
      (errorMessage e f1 = f1 ∧ errorMessage e f2 = f2) := by
  unfold errorMessage
  cases hd : (e.response.bind (fun r => r.data)).bind (fun d => d.detail) with
  | none => exact Or.inr ⟨rfl, rfl⟩
  | some m =>
    by_cases ht : truthy (some m) = true
    · left; simp [ht]
    · right; simp [ht]

/-- C17: for every backend outcome, `register` leaves storage, identity,
navigation log, location and `loading` exactly as `login` does for that
outcome (the two end states differ only in the toast and request logs) and
returns the same success flag.  On success it stores the returned
`access_token`, sets the returned user, navigates once to `/` and returns
`{success: true}`.  On failure it returns `{success: false, error: m}` and
its `catch` only adds the error toast to the state the rejected call left;
`m` is the message `login` reports unless both fall back, to
`Registration failed` and `Login failed` respectively. -/
theorem C17_register_as_login (s : App) (email username password : String)
    (full_name : Option String) (backend : Except ApiError (AxiosResponse AuthData)) :
    ({ (register s email username password full_name backend).1 with
        toasts := [], requests := [] }
      = { (login s username password backend).1 with toasts := [], requests := [] }) ∧
    ((register s email username password full_name backend).1.localStorage
        = (login s username password backend).1.localStorage ∧
      (register s email username password full_name backend).1.user
        = (login s username password backend).1.user ∧
      (register s email username password full_name backend).1.navigations
        = (login s username password backend).1.navigations ∧
      (register s email username password full_name backend).1.location
        = (login s username password backend).1.location) ∧
    ((register s email username password full_name backend).2.map (fun r => r.success)
      = (login s username password backend).2.map (fun r => r.success)) ∧
    (∀ (status : Nat) (t : String) (u : User),
      backend = .ok { status := status, data := { access_token := t, user := u } } →
      (register s email username password full_name backend).1.localStorage.getItem "token"
        = some t ∧
      (register s email username password full_name backend).1.user = some u ∧
      (register s email username password full_name backend).1.navigations
        = s.navigations ++ ["/"] ∧
      (register s email username password full_name backend).1.toasts
        = s.toasts ++ [(ToastKind.success, "Account created successfully!")] ∧
      (register s email username password full_name backend).2
        = .ok { success := true, error := none }) ∧
    (∀ e : ApiError, backend = .error e →
      (register s email username password full_name backend).2
        = .ok { success := false, error := some (errorMessage e "Registration failed") } ∧
      (login s username password backend).2
        = .ok { success := false, error := some (errorMessage e "Login failed") } ∧
      (register s email username password full_name backend).1
        = (apiService.register s email username password full_name backend).1.toast .error
            (errorMessage e "Registration failed") ∧
      (errorMessage e "Registration failed" = errorMessage e "Login failed" ∨
        (errorMessage e "Registration failed" = "Registration failed" ∧
          errorMessage e "Login failed" = "Login failed"))) := by
  cases backend with
  | ok response =>
    obtain ⟨status, t, u⟩ := response
    refine ⟨?_, ⟨?_, ?_, ?_, ?_⟩, ?_, ?_, ?_⟩
    · simp [register, login, apiService.register, apiService.login, responseData, api.request,
        api.receive, api.send, responseFulfilled, App.storageSet, App.setUser, App.navigate,
        App.toast]
    · simp [register, login, apiService.register, apiService.login, responseData, api.request,
        api.receive, api.send, responseFulfilled, App.storageSet, App.setUser, App.navigate,
        App.toast]
    · simp [register, login, apiService.register, apiService.login, responseData, api.request,
        api.receive, api.send, responseFulfilled, App.storageSet, App.setUser, App.navigate,
        App.toast]
    · simp [register, login, apiService.register, apiService.login, responseData, api.request,
        api.receive, api.send, responseFulfilled, App.storageSet, App.setUser, App.navigate,
        App.toast]
    · simp [register, login, apiService.register, apiService.login, responseData, api.request,
        api.receive, api.send, responseFulfilled, App.storageSet, App.setUser, App.navigate,
        App.toast]
    · simp [register, login, apiService.register, apiService.login, responseData, api.request,
        api.receive, api.send, responseFulfilled, Except.map]
    · intro status2 t2 u2 heq
      cases heq
      simp [register, apiService.register, responseData, api.request, api.receive, api.send,
        responseFulfilled, App.storageSet, App.setUser, App.navigate, App.toast,
        Dict.getItem_setItem_self]
    · intro e heq
      cases heq
  | error e =>
    refine ⟨?_, ⟨?_, ?_, ?_, ?_⟩, ?_, ?_, ?_⟩
    · by_cases h : e.response.map (fun r => r.status) = some 401
      · simp [register, login, apiService.register, apiService.login, responseData,
          api.request, api.receive, responseRejected_of_unauthorized _ _ h, api.send,
          App.toast, App.setHref, App.storageRemove]
      · simp [register, login, apiService.register, apiService.login, responseData,
          api.request, api.receive, responseRejected_of_other _ _ h, api.send, App.toast]
    · by_cases h : e.response.map (fun r => r.status) = some 401
      · simp [register, login, apiService.register, apiService.login, responseData,
          api.request, api.receive, responseRejected_of_unauthorized _ _ h, api.send,
          App.toast, App.setHref, App.storageRemove]
      · simp [register, login, apiService.register, apiService.login, responseData,
          api.request, api.receive, responseRejected_of_other _ _ h, api.send, App.toast]
    · by_cases h : e.response.map (fun r => r.status) = some 401
      · simp [register, login, apiService.register, apiService.login, responseData,
          api.request, api.receive, responseRejected_of_unauthorized _ _ h, api.send,
          App.toast, App.setHref, App.storageRemove]
      · simp [register, login, apiService.register, apiService.login, responseData,
          api.request, api.receive, responseRejected_of_other _ _ h, api.send, App.toast]
    · by_cases h : e.response.map (fun r => r.status) = some 401
      · simp [register, login, apiService.register, apiService.login, responseData,
          api.request, api.receive, responseRejected_of_unauthorized _ _ h, api.send,
          App.toast, App.setHref, App.storageRemove]
      · simp [register, login, apiService.register, apiService.login, responseData,
          api.request, api.receive, responseRejected_of_other _ _ h, api.send, App.toast]
    · by_cases h : e.response.map (fun r => r.status) = some 401
      · simp [register, login, apiService.register, apiService.login, responseData,
          api.request, api.receive, responseRejected_of_unauthorized _ _ h, api.send,
          App.toast, App.setHref, App.storageRemove]
      · simp [register, login, apiService.register, apiService.login, responseData,
          api.request, api.receive, responseRejected_of_other _ _ h, api.send, App.toast]
    · simp [register, login, apiService.register, apiService.login, responseData, api.request,
        api.receive, responseRejected, Except.map]
    · intro status2 t2 u2 heq
      cases heq
    · intro e2 heq
      cases heq
      refine ⟨?_, ?_, ?_, errorMessage_fallbacks e _ _⟩
      · simp [register, apiService.register, responseData, api.request, api.receive,
          responseRejected]
      · simp [login, apiService.login, responseData, api.request, api.receive,
          responseRejected]
      · simp [register, apiService.register, responseData, api.request, api.receive,
          responseRejected]

/-- Witness of C17: a registration and a login both answered with token `t2`,
and both answered with a transport failure. -/
theorem C17_register_as_login_witness :
    (register signedIn "f@example.org" "farmer1" "secret12" none
      (.ok { status := 200, data := { access_token := "t2", user := farmer } })).1.user
        = some farmer ∧
    (register signedIn "f@example.org" "farmer1" "secret12" none (.error networkError)).2
      = .ok { success := false, error := some (errorMessage networkError "Registration failed") } :=
  ⟨((C17_register_as_login signedIn "f@example.org" "farmer1" "secret12" none
      (.ok { status := 200, data := { access_token := "t2", user := farmer } })).2.2.2.1
        200 "t2" farmer rfl).2.1,
   ((C17_register_as_login signedIn "f@example.org" "farmer1" "secret12" none
      (.error networkError)).2.2.2.2 networkError rfl).1⟩

theorem register_requests (s : App) (email username password : String)
    (full_name : Option String) (backend : Except ApiError (AxiosResponse AuthData)) :
    (register s email username password full_name backend).1.requests
      = s.requests ++ [requestFulfilled s (api.postConfig "/api/auth/register"
          [("email", some email), ("username", some username), ("password", some password),
           ("full_name", full_name)])] := by
  cases backend with
  | ok response =>
    simp [register, apiService.register, responseData, api.request, api.receive, api.send,
      responseFulfilled, App.storageSet, App.setUser, App.navigate, App.toast]
  | error e =>
    by_cases h : e.response.map (fun r => r.status) = some 401
    · simp [register, apiService.register, responseData, api.request, api.receive,
        responseRejected_of_unauthorized _ _ h, api.send, App.toast, App.setHref,
        App.storageRemove]
    · simp [register, apiService.register, responseData, api.request, api.receive,
        responseRejected_of_other _ _ h, api.send, App.toast]

/-- C18: every registration sends exactly one request, a `post` to
`/api/auth/register` whose payload has exactly the fields `email`,
`username`, `password`, `full_name` with the caller's values; `full_name` is
the caller's string verbatim when one is given and is `null`, present in the
payload, when the caller passes `undefined` or `null`; and the registration
form passes `null` when its full-name field is empty and the field's text
otherwise. -/
theorem C18_register_payload (s : App) (email username password : String)
    (full_name : OptArg) (backend : Except ApiError (AxiosResponse AuthData)) :
    (registerCall s email username password full_name backend).1.requests
      = s.requests ++ [requestFulfilled s (api.postConfig "/api/auth/register"
          [("email", some email), ("username", some username), ("password", some password),
           ("full_name", full_name.orNull)])] ∧
    (requestFulfilled s (api.postConfig "/api/auth/register"
        [("email", some email), ("username", some username), ("password", some password),
         ("full_name", full_name.orNull)])).data
      = [("email", some email), ("username", some username), ("password", some password),
         ("full_name", full_name.orNull)] ∧
    (requestFulfilled s (api.postConfig "/api/auth/register"
        [("email", some email), ("username", some username), ("password", some password),
         ("full_name", full_name.orNull)])).data.map Prod.fst
      = ["email", "username", "password", "full_name"] ∧
    (∀ v : String, full_name = .value v → full_name.orNull = some v) ∧
    (full_name = .undefined ∨ full_name = .null → full_name.orNull = none) ∧
    (∀ formData : RegisterForm,
      (formData.full_name = "" → formData.fullNameArg = .null) ∧
      (formData.full_name ≠ "" → formData.fullNameArg = .value formData.full_name) ∧
      (Register.handleSubmit s formData backend).1.requests
        = s.requests ++ [requestFulfilled s (api.postConfig "/api/auth/register"
            [("email", some formData.email), ("username", some formData.username),
             ("password", some formData.password),
             ("full_name", if formData.full_name = "" then none
                else some formData.full_name)])]) := by
  refine ⟨register_requests _ _ _ _ _ _, ?_, ?_, ?_, ?_, ?_⟩
  · rw [requestFulfilled_data]; rfl
  · rw [requestFulfilled_data]; rfl
  · intro v hv
    subst hv
    rfl
  · intro h
    rcases h with h | h <;> subst h <;> rfl
  · intro formData
    have hreq : (Register.handleSubmit s formData backend).1.requests
        = (registerCall s formData.email formData.username formData.password
            formData.fullNameArg backend).1.requests := by
      unfold Register.handleSubmit
      rcases registerCall s formData.email formData.username formData.password
        formData.fullNameArg backend with ⟨s1, res⟩
      cases res <;> rfl
    refine ⟨?_, ?_, ?_⟩
    · intro h
      simp [RegisterForm.fullNameArg, truthy, h]
    · intro h
      simp [RegisterForm.fullNameArg, truthy, h]
    · rw [hreq]
      unfold registerCall
      rw [register_requests]
      by_cases h : formData.full_name = ""
      · simp [RegisterForm.fullNameArg, truthy, h, OptArg.orNull]
      · simp [RegisterForm.fullNameArg, truthy, h, OptArg.orNull]

/-- Witness of C18: the sample form with an empty full-name field, submitted
from the state of a fresh document load without a token. -/
theorem C18_register_payload_witness :
    formWithoutName.full_name = "" ∧
    (Register.handleSubmit (pageLoad ⟨[]⟩ "/register") formWithoutName
      (.error networkError)).1.requests
      = [{ method := "post", url := "/api/auth/register", headers := defaultHeaders,
           data := [("email", some "f@example.org"), ("username", some "farmer1"),
                    ("password", some "secret12"), ("full_name", none)] }] :=
  ⟨rfl,
   ((C18_register_payload (pageLoad ⟨[]⟩ "/register") "f@example.org" "farmer1" "secret12"
      .null (.error networkError)).2.2.2.2.2 formWithoutName).2.2⟩

/-! ## Idempotence of the teardown -/

/-- C19: for every state, logging out twice leaves the same storage (hence
the same stored credential), the same identity and the same exposed
`user`, `loading` and `isAuthenticated` as logging out once. -/
theorem C19_logout_idempotent (s : App) :
    (logout (logout s).1).1.localStorage = (logout s).1.localStorage ∧
    (logout (logout s).1).1.localStorage.getItem "token"
      = (logout s).1.localStorage.getItem "token" ∧
    (logout (logout s).1).1.user = (logout s).1.user ∧
    (logout (logout s).1).1.loading = (logout s).1.loading ∧
    AuthProvider.value (logout (logout s).1).1 = AuthProvider.value (logout s).1 ∧
    (logout (logout s).1).1.location = (logout s).1.location := by
  simp [logout, App.storageRemove, App.setUser, App.navigate, App.toast, AuthProvider.value,
    Dict.removeItem_removeItem]

/-- C20: for every state and all 401 errors `e1`, `e2`, handling `e2` in the
state left by handling `e1` leaves storage and location exactly as handling
`e1` alone left them (only the log of document loads grows), and handling
`e1` then `e2` ends in the same state as handling `e2` then `e1`. -/
theorem C20_later_unauthorized_noop {α : Type} (s : App) (e1 e2 : ApiError)
    (r1 r2 : ErrorResponse)
    (h1 : e1.response = some r1) (h1s : r1.status = 401)
    (h2 : e2.response = some r2) (h2s : r2.status = 401) :
    (@responseRejected α (@responseRejected α s e1).1 e2).1.localStorage
      = (@responseRejected α s e1).1.localStorage ∧
    (@responseRejected α (@responseRejected α s e1).1 e2).1.location
      = (@responseRejected α s e1).1.location ∧
    (@responseRejected α (@responseRejected α s e1).1 e2).1.user
      = (@responseRejected α s e1).1.user ∧
    (@responseRejected α (@responseRejected α s e1).1 e2).1
      = (@responseRejected α (@responseRejected α s e2).1 e1).1 := by
  have k1 := status_map_of_unauthorized e1 r1 h1 h1s
  have k2 := status_map_of_unauthorized e2 r2 h2 h2s
  simp [responseRejected_of_unauthorized _ _ k1, responseRejected_of_unauthorized _ _ k2,
    App.setHref, App.storageRemove, Dict.removeItem_removeItem]

/-- Witness of C20: an expired-token 401 followed by a wrong-password 401 over
the signed-in sample state. -/
theorem C20_later_unauthorized_noop_witness :
    (unauthorized.response = some unauthorizedResponse ∧ unauthorizedResponse.status = 401) ∧
    (@responseRejected String (@responseRejected String signedIn unauthorized).1
        wrongPassword).1.localStorage
      = (@responseRejected String signedIn unauthorized).1.localStorage ∧
    (@responseRejected String (@responseRejected String signedIn unauthorized).1
        wrongPassword).1
      = (@responseRejected String (@responseRejected String signedIn wrongPassword).1
          unauthorized).1 :=
  ⟨⟨rfl, rfl⟩,
   (C20_later_unauthorized_noop signedIn unauthorized wrongPassword unauthorizedResponse
      { status := 401, data := some { detail := some "Incorrect username or password" } }
      rfl rfl rfl rfl).1,
   (C20_later_unauthorized_noop signedIn unauthorized wrongPassword unauthorizedResponse
      { status := 401, data := some { detail := some "Incorrect username or password" } }
      rfl rfl rfl rfl).2.2.2⟩

/-! ## Direction of the credential state -/

theorem token_of_kept_or_removed (before after : Dict)
    (h : after = before ∨ after = before.removeItem "token") :
    (∀ t : String, after.getItem "token" = some t → before.getItem "token" = some t) ∧
    (before.getItem "token" = none → after.getItem "token" = none) := by
  rcases h with h | h
  · subst h
    exact ⟨fun _ ht => ht, fun hn => hn⟩
  · subst h
    refine ⟨fun t ht => ?_, fun _ => Dict.getItem_removeItem_self _ _⟩
    rw [Dict.getItem_removeItem_self] at ht
    cases ht

theorem receive_storage {α : Type} (s : App) (backend : Except ApiError (AxiosResponse α)) :
    (api.receive s backend).1.localStorage = s.localStorage ∨
    (api.receive s backend).1.localStorage = s.localStorage.removeItem "token" := by
  cases backend with
  | ok response => exact Or.inl rfl
  | error e =>
    by_cases h : e.response.map (fun r => r.status) = some 401
    · right
      simp [api.receive, responseRejected_of_unauthorized _ _ h, App.setHref, App.storageRemove]
    · left
      simp [api.receive, responseRejected_of_other _ _ h]

theorem checkAuthResume_storage (s : App) (profile : Except ApiError (AxiosResponse User)) :
    (checkAuthResume s profile).1.localStorage = s.localStorage ∨
    (checkAuthResume s profile).1.localStorage = s.localStorage.removeItem "token" := by
  cases profile with
  | ok response =>
    left
    simp [checkAuthResume, apiService.getProfileReceive, responseData, api.receive,
      responseFulfilled, App.setUser, App.setLoading]
  | error e =>
    right
    by_cases h : e.response.map (fun r => r.status) = some 401
    · simp [checkAuthResume, apiService.getProfileReceive, responseData, api.receive,
        responseRejected_of_unauthorized _ _ h, App.setHref, App.storageRemove,
        App.consoleError, App.setLoading, Dict.removeItem_removeItem]
    · simp [checkAuthResume, apiService.getProfileReceive, responseData, api.receive,
        responseRejected_of_other _ _ h, App.storageRemove, App.consoleError, App.setLoading]

theorem checkAuthBegin_storage (s : App) : (checkAuthBegin s).localStorage = s.localStorage := by
  by_cases h : truthy (s.localStorage.getItem "token") = true
  · simp [checkAuthBegin, h, apiService.getProfileSend, api.send]
  · simp [checkAuthBegin, h, App.setLoading]

theorem checkAuth_storage (s : App) (profile : Except ApiError (AxiosResponse User)) :
    (checkAuth s profile).1.localStorage = s.localStorage ∨
    (checkAuth s profile).1.localStorage = s.localStorage.removeItem "token" := by
  unfold checkAuth
  by_cases hp : (checkAuthBegin s).checkAuthPending = true
  · simp only [hp, if_true]
    have h := checkAuthResume_storage (checkAuthBegin s) profile
    rw [checkAuthBegin_storage] at h
    exact h
  · simp only [hp]
    exact Or.inl (checkAuthBegin_storage s)

/-- C21: for every state and every input, the response stage, the request
stage, a whole call through both, logout and the startup check (its two
halves and the whole) never write a credential: any `token` present after
one of them was present, with the same value, before it, and a store
without a `token` before is without one after. -/
theorem C21_never_writes_credential (s : App) (config : RequestConfig)
    (backend : Except ApiError (AxiosResponse String))
    (profile : Except ApiError (AxiosResponse User)) :
    ((∀ t : String, (api.receive s backend).1.localStorage.getItem "token" = some t →
        s.localStorage.getItem "token" = some t) ∧
      (s.localStorage.getItem "token" = none →
        (api.receive s backend).1.localStorage.getItem "token" = none)) ∧
    (api.send s config).localStorage = s.localStorage ∧
    ((∀ t : String, (api.request s config backend).1.localStorage.getItem "token" = some t →
        s.localStorage.getItem "token" = some t) ∧
      (s.localStorage.getItem "token" = none →
        (api.request s config backend).1.localStorage.getItem "token" = none)) ∧
    ((∀ t : String, (logout s).1.localStorage.getItem "token" = some t →
        s.localStorage.getItem "token" = some t) ∧
      (s.localStorage.getItem "token" = none →
        (logout s).1.localStorage.getItem "token" = none)) ∧
    (checkAuthBegin s).localStorage = s.localStorage ∧
    ((∀ t : String, (checkAuthResume s profile).1.localStorage.getItem "token" = some t →
        s.localStorage.getItem "token" = some t) ∧
      (s.localStorage.getItem "token" = none →
        (checkAuthResume s profile).1.localStorage.getItem "token" = none)) ∧
    ((∀ t : String, (checkAuth s profile).1.localStorage.getItem "token" = some t →
        s.localStorage.getItem "token" = some t) ∧
      (s.localStorage.getItem "token" = none →
        (checkAuth s profile).1.localStorage.getItem "token" = none)) := by
  refine ⟨token_of_kept_or_removed _ _ (receive_storage s backend), rfl, ?_, ?_,
    checkAuthBegin_storage s,
    token_of_kept_or_removed _ _ (checkAuthResume_storage s profile),
    token_of_kept_or_removed _ _ (checkAuth_storage s profile)⟩
  · exact token_of_kept_or_removed _ _ (receive_storage (api.send s config) backend)
  · exact token_of_kept_or_removed _ _ (Or.inr rfl)

/-- Witness of C21: after a failed startup check over empty storage and after
a 401 in the signed-in sample state no token has appeared. -/
theorem C21_never_writes_credential_witness :
    (initialApp ⟨[]⟩ "/").localStorage.getItem "token" = none ∧
    (checkAuth (initialApp ⟨[]⟩ "/") (.error networkError)).1.localStorage.getItem "token"
      = none ∧
    (@api.request String (initialApp ⟨[]⟩ "/") (api.getConfig "/crop-patterns")
      (.error unauthorized)).1.localStorage.getItem "token" = none :=
  ⟨rfl,
   (C21_never_writes_credential (initialApp ⟨[]⟩ "/") (api.getConfig "/crop-patterns")
      (.error unauthorized) (.error networkError)).2.2.2.2.2.2.2 rfl,
   (C21_never_writes_credential (initialApp ⟨[]⟩ "/") (api.getConfig "/crop-patterns")
      (.error unauthorized) (.error networkError)).2.2.1.2 rfl⟩

/-! ## Entry points, route guard and `useAuth` -/

/-- C22 as stated fails: from the signed-in sample state, logout signals the
path `/login` while the response stage on a 401 forces the path `/`, and the
two locations differ. -/
theorem C22_two_targets :
    (logout signedIn).1.navigations = ["/login"] ∧
    (@responseRejected String signedIn unauthorized).1.documentLoads = ["/"] ∧
    (logout signedIn).1.location
      ≠ (@responseRejected String signedIn unauthorized).1.location := by
  decide

/-- C22 amended: there are two anonymous entry points.  For every state,
logout signals a client-side navigation to `/login`; for every 401 error
the response stage forces a document load at `/`.  The two paths differ,
and both are routes of App.jsx outside the route guard. -/
theorem C22_entry_points (s : App) (error : ApiError) (r : ErrorResponse)
    (hr : error.response = some r) (h401 : r.status = 401) :
    (logout s).1.navigations = s.navigations ++ ["/login"] ∧
    (logout s).1.location = "/login" ∧
    (@responseRejected String s error).1.documentLoads = s.documentLoads ++ ["/"] ∧
    (@responseRejected String s error).1.location = "/" ∧
    (logout s).1.location ≠ (@responseRejected String s error).1.location ∧
    ({ path := "/login", guarded := false } : Route) ∈ routes ∧
    ({ path := "/", guarded := false } : Route) ∈ routes := by
  have h := status_map_of_unauthorized error r hr h401
  rw [responseRejected_of_unauthorized _ _ h]
  refine ⟨?_, ?_, ?_, ?_, ?_, by decide, by decide⟩ <;>
    simp [logout, App.storageRemove, App.setUser, App.navigate, App.toast, App.setHref]

/-- Witness of C22 amended at the signed-in sample state and the sample 401
error. -/
theorem C22_entry_points_witness :
    unauthorized.response = some unauthorizedResponse ∧ unauthorizedResponse.status = 401 ∧
    (logout signedIn).1.location = "/login" ∧
    (@responseRejected String signedIn unauthorized).1.location = "/" :=
  ⟨rfl, rfl,
   (C22_entry_points signedIn unauthorized unauthorizedResponse rfl rfl).2.1,
   (C22_entry_points signedIn unauthorized unauthorizedResponse rfl rfl).2.2.2.1⟩

/-- C23: the route guard, as the spec gives it, is a function of the session
status alone (two context values with the same status get the same outcome
for the same view), returns a value without touching any state, and has
exactly three outcomes: while the status is `unknown` the loading
placeholder, which is neither the view nor a redirect; when `anonymous` a
redirect to the anonymous entry point, never the view; when
`authenticated` the requested view. -/
theorem C23_route_guard {View : Type} (anonymousEntry : String) (v : AuthValue)
    (children : View) :
    (sessionStatus v = .unknown →
      ProtectedRoute anonymousEntry v children = .loadingPlaceholder ∧
      ProtectedRoute anonymousEntry v children ≠ .render children ∧
      ∀ target : String, ProtectedRoute anonymousEntry v children ≠ .redirect target) ∧
    (sessionStatus v = .anonymous →
      ProtectedRoute anonymousEntry v children = .redirect anonymousEntry ∧
      ∀ view : View, ProtectedRoute anonymousEntry v children ≠ .render view) ∧
    (sessionStatus v = .authenticated →
      ProtectedRoute anonymousEntry v children = .render children) ∧
    (ProtectedRoute anonymousEntry v children = .loadingPlaceholder ∨
      ProtectedRoute anonymousEntry v children = .redirect anonymousEntry ∨
      ProtectedRoute anonymousEntry v children = .render children) ∧
    (∀ w : AuthValue, sessionStatus w = sessionStatus v →
      ProtectedRoute anonymousEntry w children = ProtectedRoute anonymousEntry v children) ∧
    (sessionStatus v = .unknown ↔ v.loading = true) ∧
    (sessionStatus v = .authenticated ↔ v.loading = false ∧ v.isAuthenticated = true) ∧
    (sessionStatus v = .anonymous ↔ v.loading = false ∧ v.isAuthenticated = false) := by
  refine ⟨?_, ?_, ?_, ?_, ?_, ?_, ?_, ?_⟩
  · intro h
    simp [ProtectedRoute, h]
  · intro h
    simp [ProtectedRoute, h]
  · intro h
    simp [ProtectedRoute, h]
  · cases h : sessionStatus v <;> simp [ProtectedRoute, h]
  · intro w hw
    simp [ProtectedRoute, hw]
  · cases hl : v.loading <;> cases ha : v.isAuthenticated <;> simp [sessionStatus, hl, ha]
  · cases hl : v.loading <;> cases ha : v.isAuthenticated <;> simp [sessionStatus, hl, ha]
  · cases hl : v.loading <;> cases ha : v.isAuthenticated <;> simp [sessionStatus, hl, ha]

/-- Witness of C23: the guard around the dashboard while the startup check is
in flight, in the signed-in sample state, and after logout. -/
theorem C23_route_guard_witness :
    sessionStatus (AuthProvider.value (pageLoad ⟨[("token", "t1")]⟩ "/dashboard")) = .unknown ∧
    ProtectedRoute "/login" (AuthProvider.value (pageLoad ⟨[("token", "t1")]⟩ "/dashboard"))
      "Dashboard" = .loadingPlaceholder ∧
    sessionStatus (AuthProvider.value signedIn) = .authenticated ∧
    ProtectedRoute "/login" (AuthProvider.value signedIn) "Dashboard" = .render "Dashboard" ∧
    sessionStatus (AuthProvider.value (logout signedIn).1) = .anonymous ∧
    ProtectedRoute "/login" (AuthProvider.value (logout signedIn).1) "Dashboard"
      = .redirect "/login" :=
  ⟨by decide,
   ((C23_route_guard "/login" (AuthProvider.value (pageLoad ⟨[("token", "t1")]⟩ "/dashboard"))
      "Dashboard").1 (by decide)).1,
   by decide,
   (C23_route_guard "/login" (AuthProvider.value signedIn) "Dashboard").2.2.1 (by decide),
   by decide,
   ((C23_route_guard "/login" (AuthProvider.value (logout signedIn).1) "Dashboard").2.1
      (by decide)).1⟩

/-- C24: `useAuth` throws the error `useAuth must be used within AuthProvider`
if and only if the context value is absent, it throws no other error, and
otherwise it returns the context value unchanged; beneath an `AuthProvider`,
whatever its state, the context is the provider's value and `useAuth`
returns it, and without a provider it throws. -/
theorem C24_useAuth (context : Option AuthValue) (s : App) :
    (useAuth context = .error "useAuth must be used within AuthProvider" ↔ context = none) ∧
    (∀ e : String, useAuth context = .error e →
      e = "useAuth must be used within AuthProvider" ∧ context = none) ∧
    (∀ value : AuthValue, context = some value → useAuth context = .ok value) ∧
    useContext (some s) = some (AuthProvider.value s) ∧
    useAuth (useContext (some s)) = .ok (AuthProvider.value s) ∧
    useAuth (useContext none) = .error "useAuth must be used within AuthProvider" := by
  refine ⟨?_, ?_, ?_, rfl, rfl, rfl⟩
  · cases context <;> simp [useAuth]
  · intro e he
    cases context with
    | none =>
      simp only [useAuth, Except.error.injEq] at he
      exact ⟨he.symm, rfl⟩
    | some v => simp [useAuth] at he
  · intro value hv
    subst hv
    rfl

/-- Witness of C24: beneath the provider of the signed-in sample state. -/
theorem C24_useAuth_witness :
    useContext (some signedIn) = some (AuthProvider.value signedIn) ∧
    useAuth (useContext (some signedIn)) = .ok (AuthProvider.value signedIn) :=
  ⟨rfl,
   (C24_useAuth (useContext (some signedIn)) signedIn).2.2.1 (AuthProvider.value signedIn) rfl⟩

/-! ## The `loading` flag -/

theorem receive_loading {α : Type} (s : App) (backend : Except ApiError (AxiosResponse α)) :
    (api.receive s backend).1.loading = s.loading := by
  cases backend with
  | ok response => rfl
  | error e =>
    by_cases h : e.response.map (fun r => r.status) = some 401
    · simp [api.receive, responseRejected_of_unauthorized _ _ h, App.setHref, App.storageRemove]
    · simp [api.receive, responseRejected_of_other _ _ h]

theorem request_loading {α : Type} (s : App) (config : RequestConfig)
    (backend : Except ApiError (AxiosResponse α)) :
    (api.request s config backend).1.loading = s.loading := by
  unfold api.request
  rw [receive_loading]
  rfl

theorem responseData_fst {α : Type} (r : App × Except ApiError (AxiosResponse α)) :
    (responseData r).1 = r.1 := by
  rcases r with ⟨s, res⟩
  cases res <;> rfl

theorem login_loading (s : App) (username password : String)
    (backend : Except ApiError (AxiosResponse AuthData)) :
    (login s username password backend).1.loading = s.loading := by
  have h := request_loading s
    (api.postConfig "/api/auth/login" [("username", some username), ("password", some password)])
    backend
  unfold login apiService.login
  rw [← h, ← responseData_fst]
  rcases responseData _ with ⟨s1, res⟩
  cases res <;> rfl

theorem register_loading (s : App) (email username password : String)
    (full_name : Option String) (backend : Except ApiError (AxiosResponse AuthData)) :
    (register s email username password full_name backend).1.loading = s.loading := by
  have h := request_loading s
    (api.postConfig "/api/auth/register"
      [("email", some email), ("username", some username), ("password", some password),
       ("full_name", full_name)])
    backend
  unfold register apiService.register
  rw [← h, ← responseData_fst]
  rcases responseData _ with ⟨s1, res⟩
  cases res <;> rfl

theorem checkAuthResume_loading (s : App) (profile : Except ApiError (AxiosResponse User)) :
    (checkAuthResume s profile).1.loading = false := by
  unfold checkAuthResume
  simp only
  rcases apiService.getProfileReceive _ profile with ⟨s1, res⟩
  cases res <;> rfl

theorem applyEvent_loading (s : App) (event : Event) (h : s.loading = false) :
    (applyEvent s event).loading = false := by
  cases event with
  | checkAuthDone backend =>
    by_cases hp : s.checkAuthPending = true
    · simpa [applyEvent, hp] using checkAuthResume_loading s backend
    · simpa [applyEvent, hp] using h
  | login username password backend => simpa [applyEvent, login_loading] using h
  | register email username password full_name backend =>
    simpa [applyEvent, register_loading] using h
  | logout => simpa [applyEvent, logout, App.toast, App.navigate, App.setUser, App.storageRemove] using h
  | response config backend => simpa [applyEvent, request_loading] using h

theorem runEvents_loading (events : List Event) (s : App) (h : s.loading = false) :
    (runEvents s events).loading = false := by
  induction events generalizing s with
  | nil => exact h
  | cons event rest ih => exact ih (applyEvent s event) (applyEvent_loading s event h)

/-- C25: `login`, `register`, `logout` and both interceptor stages leave
`loading` as it was; the startup check is the only writer and writes
`false`: its first half leaves the flag or sets it to `false`, its second
half sets it to `false`.  Hence from a state with `loading` false every
sequence of events within the document ends with `loading` false; and a
login completing while the startup check is suspended right after a document
load leaves `loading` true. -/
theorem C25_loading_flag (s : App) (username password email : String)
    (full_name : Option String) (config : RequestConfig)
    (auth : Except ApiError (AxiosResponse AuthData))
    (backend : Except ApiError (AxiosResponse String))
    (profile : Except ApiError (AxiosResponse User)) :
    (login s username password auth).1.loading = s.loading ∧
    (register s email username password full_name auth).1.loading = s.loading ∧
    (logout s).1.loading = s.loading ∧
    (api.send s config).loading = s.loading ∧
    (api.receive s backend).1.loading = s.loading ∧
    (api.request s config backend).1.loading = s.loading ∧
    ((checkAuthBegin s).loading = s.loading ∨ (checkAuthBegin s).loading = false) ∧
    (checkAuthResume s profile).1.loading = false ∧
    (∀ events : List Event, s.loading = false → (runEvents s events).loading = false) ∧
    (∀ (ls : Dict) (location : String), (pageLoad ls location).checkAuthPending = true →
      (pageLoad ls location).loading = true ∧
      (login (pageLoad ls location) username password auth).1.loading = true) := by
  refine ⟨login_loading _ _ _ _, register_loading _ _ _ _ _ _, rfl, rfl, receive_loading _ _,
    request_loading _ _ _, ?_, checkAuthResume_loading _ _,
    fun events h => runEvents_loading events s h, ?_⟩
  · by_cases h : truthy (s.localStorage.getItem "token") = true
    · left
      simp [checkAuthBegin, h, apiService.getProfileSend, api.send]
    · right
      simp [checkAuthBegin, h, App.setLoading]
  · intro ls location hp
    have htr : truthy (ls.getItem "token") = true :=
      (checkAuthBegin_pending_iff ls location).mp hp
    have hl : (pageLoad ls location).loading = true := by
      simp [pageLoad, mount, checkAuthBegin, initialApp, htr, apiService.getProfileSend, api.send]
    exact ⟨hl, by rw [login_loading, hl]⟩

/-- Witness of C25: the sample login during the startup check, and three
events after the check has completed in the signed-in sample state. -/
theorem C25_loading_flag_witness :
    (pageLoad ⟨[("token", "old")]⟩ "/login").checkAuthPending = true ∧
    (login (pageLoad ⟨[("token", "old")]⟩ "/login") "farmer1" "secret12"
      (.ok { status := 200, data := { access_token := "t1", user := farmer } })).1.loading
        = true ∧
    signedIn.loading = false ∧
    (runEvents signedIn
      [.response (api.getConfig "/crop-patterns") (.error unauthorized), .logout,
       .login "farmer1" "secret12" (.error wrongPassword)]).loading = false :=
  ⟨by decide,
   ((C25_loading_flag signedIn "farmer1" "secret12" "f@example.org" none
      (api.getConfig "/crop-patterns")
      (.ok { status := 200, data := { access_token := "t1", user := farmer } })
      (.error unauthorized) (.error networkError)).2.2.2.2.2.2.2.2.2
        ⟨[("token", "old")]⟩ "/login" (by decide)).2,
   rfl,
   (C25_loading_flag signedIn "farmer1" "secret12" "f@example.org" none
      (api.getConfig "/crop-patterns")
      (.ok { status := 200, data := { access_token := "t1", user := farmer } })
      (.error unauthorized) (.error networkError)).2.2.2.2.2.2.2.2.1 _ rfl⟩

/-! ## Dashboard -/

/-- C26: for every pair of outcomes of the farmer-insights and crop-patterns
requests, if both succeed then `insights` and `cropPatterns` are set to the
two fetched payloads, and if at least one fails then both cells are as they
were before the load; in every case `loading` is false when the load has
completed, and both requests were sent. -/
theorem C26_dashboard_all_or_nothing (s : App) (d : DashboardState)
    (insightsBackend patternsBackend : Except ApiError (AxiosResponse String)) :
    (∀ a b : AxiosResponse String, insightsBackend = .ok a → patternsBackend = .ok b →
      (Dashboard.fetchDashboardData s d insightsBackend patternsBackend).2.insights
        = some a.data ∧
      (Dashboard.fetchDashboardData s d insightsBackend patternsBackend).2.cropPatterns
        = some b.data) ∧
    ((∃ e : ApiError, insightsBackend = .error e) ∨ (∃ e : ApiError, patternsBackend = .error e) →
      (Dashboard.fetchDashboardData s d insightsBackend patternsBackend).2.insights
        = d.insights ∧
      (Dashboard.fetchDashboardData s d insightsBackend patternsBackend).2.cropPatterns
        = d.cropPatterns ∧
      (Dashboard.fetchDashboardData s d insightsBackend patternsBackend).1.toasts.getLast?
        = some (ToastKind.error, "Failed to load dashboard data")) ∧
    (Dashboard.fetchDashboardData s d insightsBackend patternsBackend).2.loading = false ∧
    (Dashboard.fetchDashboardData s d insightsBackend patternsBackend).1.requests
      = s.requests ++ [requestFulfilled s (api.getConfig "/farmer-insights"),
          requestFulfilled s (api.getConfig "/crop-patterns")] := by
  have hreq : ∀ (α : Type) (t : App) (b : Except ApiError (AxiosResponse α)),
      (api.receive t b).1.requests = t.requests ∧ (api.receive t b).1.toasts = t.toasts := by
    intro α t b
    cases b with
    | ok r => exact ⟨rfl, rfl⟩
    | error e =>
      by_cases h : e.response.map (fun r => r.status) = some 401
      · simp [api.receive, responseRejected_of_unauthorized _ _ h, App.setHref,
          App.storageRemove]
      · simp [api.receive, responseRejected_of_other _ _ h]
  have hsend : requestFulfilled (api.send s (api.getConfig "/farmer-insights"))
      (api.getConfig "/crop-patterns") = requestFulfilled s (api.getConfig "/crop-patterns") := by
    simp [requestFulfilled, api.send]
  cases insightsBackend with
  | ok a =>
    cases patternsBackend with
    | ok b =>
      refine ⟨?_, ?_, rfl, ?_⟩
      · intro a2 b2 ha hb
        cases ha
        cases hb
        exact ⟨rfl, rfl⟩
      · intro h
        rcases h with ⟨e, he⟩ | ⟨e, he⟩ <;> cases he
      · simp [Dashboard.fetchDashboardData, responseData, api.receive, responseFulfilled,
          api.send, hsend]
        simp [requestFulfilled, api.send]
    | error e =>
      refine ⟨?_, ?_, ?_, ?_⟩
      · intro a2 b2 _ hb
        cases hb
      · intro _
        simp [Dashboard.fetchDashboardData, responseData, api.receive, responseFulfilled,
          responseRejected, App.toast, App.consoleError]
      · simp [Dashboard.fetchDashboardData, responseData, api.receive, responseFulfilled,
          responseRejected]
      · by_cases h : e.response.map (fun r => r.status) = some 401
        · simp [Dashboard.fetchDashboardData, responseData, api.receive, responseFulfilled,
            responseRejected_of_unauthorized _ _ h, App.toast, App.consoleError, App.setHref,
            App.storageRemove, api.send]
          simp [requestFulfilled, api.send]
        · simp [Dashboard.fetchDashboardData, responseData, api.receive, responseFulfilled,
            responseRejected_of_other _ _ h, App.toast, App.consoleError, api.send]
          simp [requestFulfilled, api.send]
  | error e =>
    have h1 : (responseData (api.receive (api.send (api.send s (api.getConfig "/farmer-insights"))
        (api.getConfig "/crop-patterns")) (.error e : Except ApiError (AxiosResponse String)))).2
          = .error e := by
      simp [responseData, api.receive, responseRejected]
    refine ⟨?_, ?_, ?_, ?_⟩
    · intro a2 b2 ha _
      cases ha
    · intro _
      simp only [Dashboard.fetchDashboardData, h1]
      simp [App.toast, App.consoleError]
    · simp only [Dashboard.fetchDashboardData, h1]
    · simp only [Dashboard.fetchDashboardData, h1]
      simp only [App.toast, App.consoleError, responseData_fst]
      rw [(hreq _ _ _).1, (hreq _ _ _).1]
      simp [api.send, hsend]
      simp [requestFulfilled, api.send]

/-- Witness of C26: insights arrive, crop patterns are refused with a 401. -/
theorem C26_dashboard_all_or_nothing_witness :
    (Dashboard.fetchDashboardData signedIn freshDashboard
      (.ok { status := 200, data := "insights" }) (.error unauthorized)).2.insights = none ∧
    (Dashboard.fetchDashboardData signedIn freshDashboard
      (.ok { status := 200, data := "insights" }) (.error unauthorized)).2.cropPatterns = none ∧
    (Dashboard.fetchDashboardData signedIn freshDashboard
      (.ok { status := 200, data := "insights" })
      (.ok { status := 200, data := "patterns" })).2.insights = some "insights" :=
  ⟨((C26_dashboard_all_or_nothing signedIn freshDashboard
      (.ok { status := 200, data := "insights" }) (.error unauthorized)).2.1
        (Or.inr ⟨unauthorized, rfl⟩)).1,
   ((C26_dashboard_all_or_nothing signedIn freshDashboard
      (.ok { status := 200, data := "insights" }) (.error unauthorized)).2.1
        (Or.inr ⟨unauthorized, rfl⟩)).2.1,
   ((C26_dashboard_all_or_nothing signedIn freshDashboard
      (.ok { status := 200, data := "insights" })
      (.ok { status := 200, data := "patterns" })).1 _ _ rfl rfl).1⟩

/-! ## Severity colours -/

theorem toLower_ofNat_upper (n : Nat) (h1 : 65 ≤ n) (h2 : n ≤ 90) :
    (Char.ofNat (n + 32)).toLower = Char.ofNat (n + 32) := by
  interval_cases n <;> decide

theorem toLower_toLower (c : Char) : c.toLower.toLower = c.toLower := by
  by_cases h : c.toNat ≥ 65 ∧ c.toNat ≤ 90
  · have hc : c.toLower = Char.ofNat (c.toNat + 32) := by
      simp only [Char.toLower, h, and_self, if_true]
    rw [hc]
    exact toLower_ofNat_upper _ h.1 h.2
  · have hc : c.toLower = c := by
      simp only [Char.toLower, h, if_false]
    rw [hc, hc]

theorem toLowerCase_idem (s : String) : toLowerCase (toLowerCase s) = toLowerCase s := by
  simp [toLowerCase, Function.comp_def, toLower_toLower]

theorem disease_color_of_other (severity : Option String)
    (h1 : severity.map toLowerCase ≠ some "high")
    (h2 : severity.map toLowerCase ≠ some "very high")
    (h3 : severity.map toLowerCase ≠ some "medium")
    (h4 : severity.map toLowerCase ≠ some "low")
    (h5 : severity.map toLowerCase ≠ some "none") :
    DiseaseDetection.getSeverityColor severity = "text-gray-600 bg-gray-100" := by
  unfold DiseaseDetection.getSeverityColor
  split <;> first | rfl | contradiction

theorem pest_color_of_other (severity : Option String)
    (h1 : severity.map toLowerCase ≠ some "high")
    (h2 : severity.map toLowerCase ≠ some "very high")
    (h3 : severity.map toLowerCase ≠ some "medium")
    (h4 : severity.map toLowerCase ≠ some "low")
    (h5 : severity.map toLowerCase ≠ some "none") :
    PestControl.getSeverityColor severity = "bg-gray-100 text-gray-700 border-gray-300" := by
  unfold PestControl.getSeverityColor
  split <;> first | rfl | contradiction

theorem disease_color_of_lower (severity : Option String) (l : String)
    (h : severity.map toLowerCase = some l) :
    DiseaseDetection.getSeverityColor severity = DiseaseDetection.getSeverityColor (some l) := by
  cases severity with
  | none => cases h
  | some s =>
    simp only [Option.map_some', Option.some.injEq] at h
    subst h
    simp only [DiseaseDetection.getSeverityColor, Option.map_some', toLowerCase_idem]

theorem pest_color_of_lower (severity : Option String) (l : String)
    (h : severity.map toLowerCase = some l) :
    PestControl.getSeverityColor severity = PestControl.getSeverityColor (some l) := by
  cases severity with
  | none => cases h
  | some s =>
    simp only [Option.map_some', Option.some.injEq] at h
    subst h
    simp only [PestControl.getSeverityColor, Option.map_some', toLowerCase_idem]

/-- C27: both versions of `getSeverityColor` return a class for every input,
absent included; for every string the result equals the result on its
lower-cased form; `high` and `very high` give the same red class;
`medium`, `low` and `none` give three further classes, and the four
classes and the gray default are pairwise different; every string whose
lower-cased form is none of the five names, and the absent severity, give
the gray default. -/
theorem C27_getSeverityColor (s : String) :
    (DiseaseDetection.getSeverityColor (some s)
        = DiseaseDetection.getSeverityColor (some (toLowerCase s)) ∧
      PestControl.getSeverityColor (some s)
        = PestControl.getSeverityColor (some (toLowerCase s))) ∧
    (DiseaseDetection.getSeverityColor (some "high") = "text-red-600 bg-red-100" ∧
      DiseaseDetection.getSeverityColor (some "very high") = "text-red-600 bg-red-100" ∧
      DiseaseDetection.getSeverityColor (some "medium") = "text-orange-600 bg-orange-100" ∧
      DiseaseDetection.getSeverityColor (some "low") = "text-yellow-600 bg-yellow-100" ∧
      DiseaseDetection.getSeverityColor (some "none") = "text-green-600 bg-green-100" ∧
      DiseaseDetection.getSeverityColor none = "text-gray-600 bg-gray-100") ∧
    (PestControl.getSeverityColor (some "high") = "bg-red-100 text-red-700 border-red-300" ∧
      PestControl.getSeverityColor (some "very high")
        = "bg-red-100 text-red-700 border-red-300" ∧
      PestControl.getSeverityColor (some "medium")
        = "bg-orange-100 text-orange-700 border-orange-300" ∧
      PestControl.getSeverityColor (some "low")
        = "bg-yellow-100 text-yellow-700 border-yellow-300" ∧
      PestControl.getSeverityColor (some "none")
        = "bg-green-100 text-green-700 border-green-300" ∧
      PestControl.getSeverityColor none = "bg-gray-100 text-gray-700 border-gray-300") ∧
    ([DiseaseDetection.getSeverityColor (some "high"),
        DiseaseDetection.getSeverityColor (some "medium"),
        DiseaseDetection.getSeverityColor (some "low"),
        DiseaseDetection.getSeverityColor (some "none"),
        DiseaseDetection.getSeverityColor none].Nodup ∧
      [PestControl.getSeverityColor (some "high"),
        PestControl.getSeverityColor (some "medium"),
        PestControl.getSeverityColor (some "low"),
        PestControl.getSeverityColor (some "none"),
        PestControl.getSeverityColor none].Nodup) ∧
    (toLowerCase s ≠ "high" → toLowerCase s ≠ "very high" → toLowerCase s ≠ "medium" →
      toLowerCase s ≠ "low" → toLowerCase s ≠ "none" →
      DiseaseDetection.getSeverityColor (some s) = "text-gray-600 bg-gray-100" ∧
      PestControl.getSeverityColor (some s) = "bg-gray-100 text-gray-700 border-gray-300") := by
  refine ⟨⟨?_, ?_⟩, by decide, by decide, by decide, ?_⟩
  · exact disease_color_of_lower (some s) (toLowerCase s) rfl
  · exact pest_color_of_lower (some s) (toLowerCase s) rfl
  · intro h1 h2 h3 h4 h5
    exact ⟨disease_color_of_other (some s) (by simpa using h1) (by simpa using h2)
        (by simpa using h3) (by simpa using h4) (by simpa using h5),
      pest_color_of_other (some s) (by simpa using h1) (by simpa using h2)
        (by simpa using h3) (by simpa using h4) (by simpa using h5)⟩

/-- Witness of C27: an upper-case name and a name unknown to the switch. -/
theorem C27_getSeverityColor_witness :
    DiseaseDetection.getSeverityColor (some "Very HIGH")
      = DiseaseDetection.getSeverityColor (some (toLowerCase "Very HIGH")) ∧
    toLowerCase "Very HIGH" = "very high" ∧
    PestControl.getSeverityColor (some "Severe") = "bg-gray-100 text-gray-700 border-gray-300" :=
  ⟨(C27_getSeverityColor "Very HIGH").1.1, by decide,
   ((C27_getSeverityColor "Severe").2.2.2.2 (by decide) (by decide) (by decide) (by decide)
      (by decide)).2⟩

theorem pest_color_of_disease_color (severity : Option String) :
    PestControl.getSeverityColor severity =
      (fun c : String =>
        if c = "text-red-600 bg-red-100" then "bg-red-100 text-red-700 border-red-300"
        else if c = "text-orange-600 bg-orange-100" then
          "bg-orange-100 text-orange-700 border-orange-300"
        else if c = "text-yellow-600 bg-yellow-100" then
          "bg-yellow-100 text-yellow-700 border-yellow-300"
        else if c = "text-green-600 bg-green-100" then
          "bg-green-100 text-green-700 border-green-300"
        else "bg-gray-100 text-gray-700 border-gray-300")
      (DiseaseDetection.getSeverityColor severity) := by
  by_cases h1 : severity.map toLowerCase = some "high"
  · rw [disease_color_of_lower severity _ h1, pest_color_of_lower severity _ h1]
    decide
  by_cases h2 : severity.map toLowerCase = some "very high"
  · rw [disease_color_of_lower severity _ h2, pest_color_of_lower severity _ h2]
    decide
  by_cases h3 : severity.map toLowerCase = some "medium"
  · rw [disease_color_of_lower severity _ h3, pest_color_of_lower severity _ h3]
    decide
  by_cases h4 : severity.map toLowerCase = some "low"
  · rw [disease_color_of_lower severity _ h4, pest_color_of_lower severity _ h4]
    decide
  by_cases h5 : severity.map toLowerCase = some "none"
  · rw [disease_color_of_lower severity _ h5, pest_color_of_lower severity _ h5]
    decide
  rw [disease_color_of_other severity h1 h2 h3 h4 h5, pest_color_of_other severity h1 h2 h3 h4 h5]
  decide

theorem disease_color_of_pest_color (severity : Option String) :
    DiseaseDetection.getSeverityColor severity =
      (fun c : String =>
        if c = "bg-red-100 text-red-700 border-red-300" then "text-red-600 bg-red-100"
        else if c = "bg-orange-100 text-orange-700 border-orange-300" then
          "text-orange-600 bg-orange-100"
        else if c = "bg-yellow-100 text-yellow-700 border-yellow-300" then
          "text-yellow-600 bg-yellow-100"
        else if c = "bg-green-100 text-green-700 border-green-300" then
          "text-green-600 bg-green-100"
        else "text-gray-600 bg-gray-100")
      (PestControl.getSeverityColor severity) := by
  by_cases h1 : severity.map toLowerCase = some "high"
  · rw [disease_color_of_lower severity _ h1, pest_color_of_lower severity _ h1]
    decide
  by_cases h2 : severity.map toLowerCase = some "very high"
  · rw [disease_color_of_lower severity _ h2, pest_color_of_lower severity _ h2]
    decide
  by_cases h3 : severity.map toLowerCase = some "medium"
  · rw [disease_color_of_lower severity _ h3, pest_color_of_lower severity _ h3]
    decide
  by_cases h4 : severity.map toLowerCase = some "low"
  · rw [disease_color_of_lower severity _ h4, pest_color_of_lower severity _ h4]
    decide
  by_cases h5 : severity.map toLowerCase = some "none"
  · rw [disease_color_of_lower severity _ h5, pest_color_of_lower severity _ h5]
    decide
  rw [disease_color_of_other severity h1 h2 h3 h4 h5, pest_color_of_other severity h1 h2 h3 h4 h5]
  decide

/-- C28: for all severities `s1` and `s2`, absent included, the
disease-detection `getSeverityColor` gives them the same class if and only
if the pest-control `getSeverityColor` does. -/
theorem C28_same_classification (s1 s2 : Option String) :
    DiseaseDetection.getSeverityColor s1 = DiseaseDetection.getSeverityColor s2 ↔
      PestControl.getSeverityColor s1 = PestControl.getSeverityColor s2 := by
  constructor
  · intro h
    rw [pest_color_of_disease_color s1, pest_color_of_disease_color s2, h]
  · intro h
    rw [disease_color_of_pest_color s1, disease_color_of_pest_color s2, h]

/-! ## Image pages and form pages -/

/-- C29: on both image pages, selecting a file whose MIME type does not start
with `image/`, or selecting no file, leaves the whole page state
(`selectedImage`, `previewUrl`, `result`, `loading`) as it was; selecting a
file whose type starts with `image/` makes it the `selectedImage`, sets its
object URL as `previewUrl` and clears `result`; and a submit with no
selected image sends no request and leaves the page state, `loading`
included, as it was, so `loading` stays false. -/
theorem C29_image_selection (createObjectURL : File → String) (s : App) (p : ImagePage)
    (file : File) (backend : Except ApiError (AxiosResponse String)) :
    (startsWith file.type "image/" = false →
      (DiseaseDetection.handleImageSelect createObjectURL s p (some file)).2 = p ∧
      (PestControl.handleImageSelect createObjectURL s p (some file)).2 = p) ∧
    ((DiseaseDetection.handleImageSelect createObjectURL s p none).2 = p ∧
      (PestControl.handleImageSelect createObjectURL s p none).2 = p) ∧
    (startsWith file.type "image/" = true →
      (DiseaseDetection.handleImageSelect createObjectURL s p (some file)).2
        = { p with selectedImage := some file, previewUrl := some (createObjectURL file),
                   result := none } ∧
      (DiseaseDetection.handleImageSelect createObjectURL s p (some file)).2.selectedImage
        = some file ∧
      (DiseaseDetection.handleImageSelect createObjectURL s p (some file)).2.result = none ∧
      (PestControl.handleImageSelect createObjectURL s p (some file)).2
        = { p with selectedImage := some file, previewUrl := some (createObjectURL file),
                   result := none } ∧
      (PestControl.handleImageSelect createObjectURL s p (some file)).2.selectedImage
        = some file ∧
      (PestControl.handleImageSelect createObjectURL s p (some file)).2.result = none) ∧
    (p.selectedImage = none →
      (DiseaseDetection.handleSubmit s p backend).1.requests = s.requests ∧
      (DiseaseDetection.handleSubmit s p backend).2 = p ∧
      (PestControl.handleSubmit s p backend).1.requests = s.requests ∧
      (PestControl.handleSubmit s p backend).2 = p ∧
      (p.loading = false →
        (DiseaseDetection.handleSubmit s p backend).2.loading = false ∧
        (PestControl.handleSubmit s p backend).2.loading = false)) := by
  refine ⟨?_, ⟨rfl, rfl⟩, ?_, ?_⟩
  · intro h
    simp [DiseaseDetection.handleImageSelect, PestControl.handleImageSelect, h]
  · intro h
    simp [DiseaseDetection.handleImageSelect, PestControl.handleImageSelect, h]
  · intro h
    simp [DiseaseDetection.handleSubmit, PestControl.handleSubmit, h, App.toast]

/-- Witness of C29: a text file offered to the page that shows an earlier
result, an image offered to it, and a submit on the fresh page. -/
theorem C29_image_selection_witness :
    (startsWith notesFile.type "image/" = false ∧
      (DiseaseDetection.handleImageSelect sampleObjectURL signedIn pageWithResult
        (some notesFile)).2 = pageWithResult) ∧
    (startsWith leafPhoto.type "image/" = true ∧
      (PestControl.handleImageSelect sampleObjectURL signedIn pageWithResult
        (some leafPhoto)).2.result = none) ∧
    (freshImagePage.selectedImage = none ∧
      (DiseaseDetection.handleSubmit signedIn freshImagePage
        (.ok { status := 200, data := "leaf blight" })).1.requests = signedIn.requests) :=
  ⟨⟨by decide,
    ((C29_image_selection sampleObjectURL signedIn pageWithResult notesFile
      (.ok { status := 200, data := "leaf blight" })).1 (by decide)).1⟩,
   ⟨by decide,
    ((C29_image_selection sampleObjectURL signedIn pageWithResult leafPhoto
      (.ok { status := 200, data := "leaf blight" })).2.2.1 (by decide)).2.2.2.2.2⟩,
   ⟨rfl,
    ((C29_image_selection sampleObjectURL signedIn freshImagePage leafPhoto
      (.ok { status := 200, data := "leaf blight" })).2.2.2 rfl).1⟩⟩

/-- C30: on the crop-recommendation and the irrigation form, every submit run
to completion leaves `loading` false; when the request succeeds `result` is
the backend response, and when it fails `result` is `null`, whatever
`result` held before the submit. -/
theorem C30_form_submit (parseFloat : String → Option String) (s : App) (p : FormPage)
    (crop : CropForm) (irrigation : IrrigationForm)
    (backend : Except ApiError (AxiosResponse String)) :
    (CropRecommendation.handleSubmit parseFloat s p crop backend).2.loading = false ∧
    (IrrigationScheduler.handleSubmit parseFloat s p irrigation backend).2.loading = false ∧
    (∀ response : AxiosResponse String, backend = .ok response →
      (CropRecommendation.handleSubmit parseFloat s p crop backend).2.result
        = some response.data ∧
      (IrrigationScheduler.handleSubmit parseFloat s p irrigation backend).2.result
        = some response.data) ∧
    (∀ e : ApiError, backend = .error e →
      (CropRecommendation.handleSubmit parseFloat s p crop backend).2.result = none ∧
      (IrrigationScheduler.handleSubmit parseFloat s p irrigation backend).2.result = none) := by
  cases backend with
  | ok response =>
    refine ⟨?_, ?_, ?_, ?_⟩
    · simp [CropRecommendation.handleSubmit, apiService.predictCrop, responseData, api.request,
        api.receive, responseFulfilled]
    · simp [IrrigationScheduler.handleSubmit, apiService.getIrrigationSchedule, responseData,
        api.request, api.receive, responseFulfilled]
    · intro r hr
      cases hr
      simp [CropRecommendation.handleSubmit, IrrigationScheduler.handleSubmit,
        apiService.predictCrop, apiService.getIrrigationSchedule, responseData, api.request,
        api.receive, responseFulfilled]
    · intro e he
      cases he
  | error e =>
    refine ⟨?_, ?_, ?_, ?_⟩
    · simp [CropRecommendation.handleSubmit, apiService.predictCrop, responseData, api.request,
        api.receive, responseRejected]
    · simp [IrrigationScheduler.handleSubmit, apiService.getIrrigationSchedule, responseData,
        api.request, api.receive, responseRejected]
    · intro r hr
      cases hr
    · intro e2 he
      simp [CropRecommendation.handleSubmit, IrrigationScheduler.handleSubmit,
        apiService.predictCrop, apiService.getIrrigationSchedule, responseData, api.request,
        api.receive, responseRejected]

/-- Witness of C30: a crop submit that fails over a page still showing an
earlier result, and an irrigation submit that succeeds. -/
theorem C30_form_submit_witness :
    formWithResult.result = some "rice" ∧
    (CropRecommendation.handleSubmit sampleParseFloat signedIn formWithResult sampleCropForm
      (.error serverError)).2.result = none ∧
    (IrrigationScheduler.handleSubmit sampleParseFloat signedIn formWithResult
      sampleIrrigationForm (.ok { status := 200, data := "every 3 days" })).2.result
        = some "every 3 days" :=
  ⟨rfl,
   ((C30_form_submit sampleParseFloat signedIn formWithResult sampleCropForm
      sampleIrrigationForm (.error serverError)).2.2.2 serverError rfl).1,
   ((C30_form_submit sampleParseFloat signedIn formWithResult sampleCropForm
      sampleIrrigationForm (.ok { status := 200, data := "every 3 days" })).2.2.1 _ rfl).2⟩

end Mittimantra
